import Mathlib

/-!
Verification of the Cloudflare-Workers blog backend (routing, authorization
gate, rate limiting, CRUD handlers) against its natural-language
specification.  The TypeScript sources are embedded shallowly: each handler
becomes a pure Lean function over an explicit system state (`Sys`), every
database query is given its relational meaning over lists of rows, and the
HTTP response envelope of `utils/response.ts` becomes the `Response`
structure.  External library primitives that the repository merely calls
(the jose JWT signer, bcrypt comparison) are modelled as an idealised
signing pair and an abstract comparison oracle; everything written in the
repository itself is translated operation by operation.

Modelling conventions, fixed once here:
* JavaScript strings are Lean `String`s; the JS operations `startsWith`,
  `slice`, `trim`, `split` and `includes` are modelled on the underlying
  character list (for the ASCII data handled here the two agree).
* Query-string parameters arrive already parsed: `parseInt` of an absent
  parameter with a default is `Option.getD`, a present numeric parameter is
  `some n`.  JSON request bodies are flat objects whose values are the
  primitives the handlers actually read (strings, numbers, integer arrays);
  a body on which `request.json()` throws is `none`.
* `Date.now()` is an explicit millisecond parameter `nowMs`; the
  cryptographically random upload-filename suffix is an explicit parameter.
* SQL `ORDER BY` is a stable sort on the relevant key; `AUTOINCREMENT` id
  assignment is `freshId` (one more than the current maximum).
-/

namespace Blog

/-! ## JavaScript string primitives -/

/-- Whitespace characters removed by the JS `String.prototype.trim`. -/
def isJsWhitespace (c : Char) : Bool :=
  c = ' ' || c = '\t' || c = '\n' || c = '\r' || c = '\x0b' || c = '\x0c'

/-- JS `s.trim()`: strip whitespace from both ends. -/
def jsTrim (s : String) : String :=
  ⟨((s.data.dropWhile isJsWhitespace).reverse.dropWhile isJsWhitespace).reverse⟩

/-- JS `s.startsWith(p)`. -/
def jsStartsWith (s p : String) : Bool :=
  p.data.isPrefixOf s.data

/-- JS `s.slice(n)` for a non-negative index. -/
def jsSlice (s : String) (n : Nat) : String :=
  ⟨s.data.drop n⟩

/-- JS `s.includes(p)` (substring test). -/
def jsIncludes (s p : String) : Bool :=
  decide (p.data <:+: s.data)

/-- Numeric value of a list of decimal digit characters. -/
def digitsVal (cs : List Char) : Nat :=
  cs.foldl (fun acc c => acc * 10 + (c.toNat - 48)) 0

/-! ## JSON bodies

A parsed JSON request body is a flat object.  The handlers only ever read
string fields, numeric fields and one integer-array field (`tag_ids`), so
values are restricted to those shapes. -/

inductive JsonVal where
  | null
  | bool (b : Bool)
  | num (n : Int)
  | str (s : String)
  | numArr (ns : List Int)
deriving DecidableEq

/-- A JSON object: association list from field name to value. -/
abbrev JsonObj := List (String × JsonVal)

/-- Field access `body.k` (first binding wins, keys are unique in JSON). -/
def getField (body : JsonObj) (k : String) : Option JsonVal :=
  body.lookup k

/-- The TS pattern `!body.k || typeof body.k !== 'string'` passes exactly
when the field is a non-empty string; this returns that string. -/
def getRequiredString (body : JsonObj) (k : String) : Option String :=
  match getField body k with
  | some (.str s) => if s = "" then none else some s
  | _ => none

/-- The TS pattern `!body.k || typeof body.k !== 'string' || body.k.trim() === ''`. -/
def getRequiredTrimmedString (body : JsonObj) (k : String) : Option String :=
  match getRequiredString body k with
  | some s => if jsTrim s = "" then none else some s
  | none => none

/-- The TS pattern `body.k || null` for an optional string column (falsy
values — absent field, empty string — become NULL). -/
def getOptionalString (body : JsonObj) (k : String) : Option String :=
  match getField body k with
  | some (.str s) => if s = "" then none else some s
  | _ => none

/-- The TS pattern `body.k?.trim() || null` for an optional trimmed string
column. -/
def getOptionalTrimmedString (body : JsonObj) (k : String) : Option String :=
  match getField body k with
  | some (.str s) => if jsTrim s = "" then none else some (jsTrim s)
  | _ => none

/-- The TS pattern `body.k || null` for an optional numeric column (`0` is
falsy and becomes NULL). -/
def getOptionalNum (body : JsonObj) (k : String) : Option Int :=
  match getField body k with
  | some (.num n) => if n = 0 then none else some n
  | _ => none

/-- `body.tag_ids` when present and a (possibly empty) array. -/
def getNumArr (body : JsonObj) (k : String) : Option (List Int) :=
  match getField body k with
  | some (.numArr ns) => some ns
  | _ => none

/-! ## Data model (`models/types.ts`, `schema.sql`) -/

inductive ArticleStatus where
  | draft
  | published
deriving DecidableEq

/-- Stored string of an article status (`status TEXT CHECK(status IN ...)`). -/
def ArticleStatus.toStr : ArticleStatus → String
  | .draft => "draft"
  | .published => "published"

structure Admin where
  id : Int
  username : String
  passwordHash : String
  createdAt : Int
deriving DecidableEq

structure Category where
  id : Int
  name : String
  slug : String
  description : Option String
  createdAt : Int
deriving DecidableEq

structure Tag where
  id : Int
  name : String
  slug : String
  createdAt : Int
deriving DecidableEq

structure Article where
  id : Int
  title : String
  content : String
  cover : Option String
  categoryId : Option Int
  description : Option String
  keywords : Option String
  status : ArticleStatus
  viewCount : Int
  likeCount : Int
  isPinned : Bool
  createdAt : Int
  updatedAt : Int
deriving DecidableEq

/-- An object stored in the R2 bucket by the upload handler. -/
structure StoredObject where
  filename : String
  size : Nat
  contentType : String
deriving DecidableEq

/-- One record of the in-memory rate-limit map. -/
structure RateRecord where
  count : Nat
  resetTime : Nat
deriving DecidableEq

/-- The rate-limit store: a map from key to record, as an association list
whose `lookup` agrees with the JS `Map` (`storeSet` below keeps it so). -/
abbrev RateStore := List (String × RateRecord)

/-- Whole mutable state reachable from a request: the five D1 tables, the
R2 bucket, and the module-global rate-limit map. -/
structure Sys where
  articles : List Article
  categories : List Category
  tags : List Tag
  articleTags : List (Int × Int)
  admins : List Admin
  bucket : List StoredObject
  rateStore : RateStore
deriving DecidableEq

/-! ## Response envelope (`utils/response.ts`) -/

/-- Typed success payloads: one constructor per distinct `success(data)`
shape produced by the handlers. -/
structure ArticleWithRels where
  article : Article
  category : Option Category
  tags : List Tag
deriving DecidableEq

/-- Column projection of the related-articles query in `handleGetArticle`. -/
structure RelatedArticle where
  id : Int
  title : String
  cover : Option String
  description : Option String
  viewCount : Int
  createdAt : Int
deriving DecidableEq

/-- Idealised jose token: the claims set by `signToken` plus the signing
key (standing for the HMAC signature). -/
structure JoseToken where
  sub : String
  username : String
  iat : Int
  exp : Int
  key : String
deriving DecidableEq

inductive ResponseData where
  | categoryList (cs : List Category)
  | categoryItem (c : Category)
  | tagList (ts : List Tag)
  | tagItem (t : Tag)
  | articleList (data : List ArticleWithRels) (total : Int) (page : Int) (pageSize : Int)
  | adminArticleList (data : List Article) (total : Int) (page : Int) (pageSize : Int)
  | articleDetail (article : Article) (category : Option Category) (tags : List Tag)
      (relatedArticles : List RelatedArticle)
  | adminArticleDetail (article : Article) (tags : List Tag)
  | articleSaved (article : Article) (tags : List Tag)
  | likeResult (liked : Bool) (likeCount : Int)
  | pinResult (pinned : Bool) (message : String)
  | deletedResult (deleted : Bool)
  | loginResult (token : JoseToken) (expiresAt : Int)
  | uploadResult (url : String) (filename : String)
  | healthResult
deriving DecidableEq

structure ApiError where
  code : String
  message : String
deriving DecidableEq

/-- Body of a response: the uniform `{success: true, data}` /
`{success: false, error}` envelope. -/
inductive ApiResult where
  | ok (data : ResponseData)
  | err (e : ApiError)
deriving DecidableEq

/-- An HTTP response: status, the uniform success/error envelope, and the
only non-CORS header any handler sets (`Retry-After`). -/
structure Response where
  status : Nat
  result : ApiResult
  retryAfter : Option Nat
deriving DecidableEq

def successResponse (d : ResponseData) (status : Nat := 200) : Response :=
  ⟨status, .ok d, none⟩

def errorResponse (code message : String) (status : Nat) : Response :=
  ⟨status, .err ⟨code, message⟩, none⟩

def unauthorizedResponse (message : String) : Response :=
  errorResponse "UNAUTHORIZED" message 401

def notFoundResponse (message : String) : Response :=
  errorResponse "NOT_FOUND" message 404

def badRequestResponse (message : String) : Response :=
  errorResponse "BAD_REQUEST" message 400

def conflictResponse (message : String) : Response :=
  errorResponse "CONFLICT" message 409

def payloadTooLargeResponse (message : String) : Response :=
  errorResponse "PAYLOAD_TOO_LARGE" message 413

/-- `tooManyRequests(message, retryAfter)`: the JS guard `if (retryAfter)`
means a zero value (falsy) does not set the header. -/
def tooManyRequestsResponse (message : String) (retryAfter : Nat) : Response :=
  ⟨429, .err ⟨"TOO_MANY_REQUESTS", message⟩,
    if retryAfter = 0 then none else some retryAfter⟩

/-! ## JWT module (`utils/jwt.ts`)

The repository wraps the external jose library.  `signToken` contributes
exactly the claims and timestamps; the HS256 signature itself is idealised
as carrying the signing key inside the token value. -/

structure JWTPayload where
  sub : String
  username : String
  iat : Int
  exp : Int
deriving DecidableEq

/-- `TOKEN_EXPIRATION_SECONDS = 24 * 60 * 60`. -/
def TOKEN_EXPIRATION_SECONDS : Int := 24 * 60 * 60

def getTokenExpirationSeconds : Int := TOKEN_EXPIRATION_SECONDS

/-- `signToken(payload, secret)`: issued-at is `now`, expiry is
`now + TOKEN_EXPIRATION_SECONDS`; claims are sub and username. -/
def signToken (sub username : String) (secret : String) (nowSec : Int) : JoseToken :=
  ⟨sub, username, nowSec, nowSec + TOKEN_EXPIRATION_SECONDS, secret⟩

/-- `verifyToken(token, secret)` over the idealised jose pair: the
signature validates exactly when the key matches, jose rejects a token
whose `exp` is not in the future, and the repository code then checks the
claim fields are present with the right types (always true here). -/
def verifyTokenModel (t : JoseToken) (secret : String) (nowSec : Int) : Option JWTPayload :=
  if t.key = secret && nowSec < t.exp then
    some ⟨t.sub, t.username, t.iat, t.exp⟩
  else
    none

/-! ## Authentication middleware (`middleware/auth.ts`)

Incoming bearer credentials are character strings; their cryptographic
verification (`verifyToken` on a string, via jose) is kept abstract as an
oracle `verify : token → secret → Option JWTPayload` that every theorem
quantifies over. -/

/-- `extractBearerToken(authHeader)`: requires the literal prefix
`"Bearer "` (the check `startsWith` is case-sensitive), takes the rest via
`slice(7).trim()`, and rejects an empty remainder. -/
def extractBearerToken (authHeader : Option String) : Option String :=
  match authHeader with
  | none => none
  | some h =>
    if jsStartsWith h "Bearer " then
      let token := jsTrim (jsSlice h 7)
      if token = "" then none else some token
    else
      none

/-- Result of `authMiddleware`: a user context or a 401 response. -/
inductive AuthResult where
  | okUser (user : JWTPayload)
  | errResponse (r : Response)

/-- `authMiddleware(request, env)`. -/
def authMiddleware (verify : String → String → Option JWTPayload)
    (authorization : Option String) (jwtSecret : String) : AuthResult :=
  match extractBearerToken authorization with
  | none => .errResponse (unauthorizedResponse "Missing or invalid authorization header")
  | some token =>
    match verify token jwtSecret with
    | none => .errResponse (unauthorizedResponse "Invalid or expired token")
    | some payload => .okUser payload

/-! ## Security middleware (`middleware/security.ts`) -/

def MAX_REQUEST_BODY_SIZE : Nat := 1024 * 1024

def MAX_UPLOAD_SIZE : Nat := 10 * 1024 * 1024

/-- `checkRequestBodySize`: with a Content-Length header the declared size
must not exceed the limit; without one the check passes. -/
def checkRequestBodySize (contentLength : Option Nat) (maxSize : Nat) : Bool :=
  match contentLength with
  | some size => size ≤ maxSize
  | none => true

structure RateLimitConfig where
  maxRequests : Nat
  windowMs : Nat
deriving DecidableEq

structure RateLimitResult where
  allowed : Bool
  remaining : Nat
  resetTime : Nat
deriving DecidableEq

/-- `rateLimitStore.delete(key)`. -/
def storeDelete (store : RateStore) (key : String) : RateStore :=
  store.filter (fun p => !(p.1 = key))

/-- `rateLimitStore.set(key, r)`: written so that `lookup` sees the new
binding, matching the JS `Map`. -/
def storeSet (store : RateStore) (key : String) (r : RateRecord) : RateStore :=
  (key, r) :: storeDelete store key

/-- `checkRateLimit(key, config)` at time `now` (ms): drop the record if
expired, then either create a fresh window, block when the count reached
the maximum, or increment the count. -/
def checkRateLimit (now : Nat) (key : String) (config : RateLimitConfig)
    (store : RateStore) : RateLimitResult × RateStore :=
  let store1 :=
    match store.lookup key with
    | some record => if now > record.resetTime then storeDelete store key else store
    | none => store
  match store1.lookup key with
  | none =>
    let resetTime := now + config.windowMs
    (⟨true, config.maxRequests - 1, resetTime⟩, storeSet store1 key ⟨1, resetTime⟩)
  | some existing =>
    if existing.count ≥ config.maxRequests then
      (⟨false, 0, existing.resetTime⟩, store1)
    else
      (⟨true, config.maxRequests - (existing.count + 1), existing.resetTime⟩,
        storeSet store1 key ⟨existing.count + 1, existing.resetTime⟩)

/-- `getClientIP(request)`: `CF-Connecting-IP`, else the first
comma-separated entry of `X-Forwarded-For` trimmed, else `"unknown"`
(JS `||` falls through on empty strings). -/
def getClientIP (cfConnectingIP xForwardedFor : Option String) : String :=
  let fromXff : Option String :=
    match xForwardedFor with
    | some s =>
      let first := jsTrim ⟨s.data.takeWhile (fun c => !(c = ','))⟩
      if first = "" then none else some first
    | none => none
  match cfConnectingIP with
  | some ip => if ip = "" then fromXff.getD "unknown" else ip
  | none => fromXff.getD "unknown"

/-! ## SQL building blocks -/

/-- Stable insertion into a list sorted by the boolean relation `le`. -/
def insertLeB {α : Type} (le : α → α → Bool) (x : α) : List α → List α
  | [] => [x]
  | y :: ys => if le x y then x :: y :: ys else y :: insertLeB le x ys

/-- Stable insertion sort by the boolean relation `le`; gives `ORDER BY`
its meaning. -/
def sortLeB {α : Type} (le : α → α → Bool) : List α → List α
  | [] => []
  | x :: xs => insertLeB le x (sortLeB le xs)

/-- `AUTOINCREMENT` id assignment: one past the current maximum. -/
def freshId (ids : List Int) : Int :=
  ids.foldr max 0 + 1

/-- `ORDER BY created_at DESC` on articles. -/
def byCreatedDesc (a b : Article) : Bool :=
  decide (b.createdAt ≤ a.createdAt)

/-- Membership of `(aid, tid)` in `article_tags`. -/
def hasTag (sys : Sys) (aid tid : Int) : Bool :=
  sys.articleTags.any (fun p => decide (p.1 = aid) && decide (p.2 = tid))

/-- The tags joined to an article
(`SELECT t.* FROM tags t JOIN article_tags at ON ... WHERE at.article_id = ?`). -/
def articleTagsOf (sys : Sys) (aid : Int) : List Tag :=
  sys.tags.filter (fun t => hasTag sys aid t.id)

/-- `article.category_id ? (SELECT ... WHERE id = ?) : null` (a zero id is
falsy in JS and yields null). -/
def categoryOf (sys : Sys) (a : Article) : Option Category :=
  match a.categoryId with
  | some cid => if cid = 0 then none else sys.categories.find? (fun c => decide (c.id = cid))
  | none => none

/-! ## Requests

A request carries exactly the observations the backend makes of it.
Query-string and Content-Length values arrive already parsed (see the
header comment); `jsonBody = none` means `request.json()` throws. -/

structure MultipartFile where
  fileType : String
  fileSize : Nat
deriving DecidableEq

structure Request where
  method : String
  path : String
  authorization : Option String
  contentType : Option String
  contentLength : Option Nat
  cfConnectingIP : Option String
  xForwardedFor : Option String
  jsonBody : Option JsonObj
  formFile : Option MultipartFile
  bodySize : Nat
  qPage : Option Int
  qPageSize : Option Int
  qCategoryId : Option Int
  qTagId : Option Int
  qStatus : Option String
deriving DecidableEq

/-! ## Category handlers (`handlers/categories.ts`) -/

def handleGetCategories (sys : Sys) : Response :=
  successResponse (.categoryList
    (sortLeB (fun a b => decide (b.createdAt ≤ a.createdAt)) sys.categories))

def handleGetCategory (sys : Sys) (id : Int) : Response :=
  match sys.categories.find? (fun c => decide (c.id = id)) with
  | none => notFoundResponse "Category not found"
  | some c => successResponse (.categoryItem c)

def handleCreateCategory (now : Int) (body? : Option JsonObj) (sys : Sys) :
    Response × Sys :=
  match body? with
  | none => (badRequestResponse "Invalid JSON body", sys)
  | some body =>
    match getRequiredTrimmedString body "name" with
    | none => (badRequestResponse "Name is required", sys)
    | some name =>
      match getRequiredTrimmedString body "slug" with
      | none => (badRequestResponse "Slug is required", sys)
      | some slug =>
        if (sys.categories.find? (fun c => decide (c.slug = slug))).isSome then
          (conflictResponse "Category with this slug already exists", sys)
        else
          let c : Category := ⟨freshId (sys.categories.map (·.id)), jsTrim name,
            jsTrim slug, getOptionalTrimmedString body "description", now⟩
          (successResponse (.categoryItem c) 201,
            { sys with categories := sys.categories ++ [c] })

def handleUpdateCategory (body? : Option JsonObj) (sys : Sys) (id : Int) :
    Response × Sys :=
  match body? with
  | none => (badRequestResponse "Invalid JSON body", sys)
  | some body =>
    match getRequiredTrimmedString body "name" with
    | none => (badRequestResponse "Name is required", sys)
    | some name =>
      match getRequiredTrimmedString body "slug" with
      | none => (badRequestResponse "Slug is required", sys)
      | some slug =>
        match sys.categories.find? (fun c => decide (c.id = id)) with
        | none => (notFoundResponse "Category not found", sys)
        | some existing =>
          if (sys.categories.find? (fun c =>
              decide (c.slug = slug) && !(decide (c.id = id)))).isSome then
            (conflictResponse "Category with this slug already exists", sys)
          else
            let updated : Category :=
              { existing with
                name := jsTrim name
                slug := jsTrim slug
                description := getOptionalTrimmedString body "description" }
            (successResponse (.categoryItem updated),
              { sys with categories := sys.categories.map (fun c =>
                  if decide (c.id = id) then
                    { c with
                      name := jsTrim name
                      slug := jsTrim slug
                      description := getOptionalTrimmedString body "description" }
                  else c) })

/-- Number of articles referencing a category
(`SELECT COUNT(*) FROM articles WHERE category_id = ?`). -/
def referencingArticleCount (sys : Sys) (id : Int) : Nat :=
  (sys.articles.filter (fun a => decide (a.categoryId = some id))).length

def handleDeleteCategory (sys : Sys) (id : Int) : Response × Sys :=
  match sys.categories.find? (fun c => decide (c.id = id)) with
  | none => (notFoundResponse "Category not found", sys)
  | some _ =>
    let count := referencingArticleCount sys id
    if count > 0 then
      (conflictResponse ("Cannot delete category: " ++ toString count ++
        " article(s) are using this category"), sys)
    else
      (successResponse (.deletedResult true),
        { sys with categories := sys.categories.filter (fun c => !(decide (c.id = id))) })

/-! ## Tag handlers (`handlers/tags.ts`) -/

def handleGetTags (sys : Sys) : Response :=
  successResponse (.tagList
    (sortLeB (fun a b => decide (b.createdAt ≤ a.createdAt)) sys.tags))

def handleGetTag (sys : Sys) (id : Int) : Response :=
  match sys.tags.find? (fun t => decide (t.id = id)) with
  | none => notFoundResponse "Tag not found"
  | some t => successResponse (.tagItem t)

def handleCreateTag (now : Int) (body? : Option JsonObj) (sys : Sys) :
    Response × Sys :=
  match body? with
  | none => (badRequestResponse "Invalid JSON body", sys)
  | some body =>
    match getRequiredTrimmedString body "name" with
    | none => (badRequestResponse "Name is required", sys)
    | some name =>
      match getRequiredTrimmedString body "slug" with
      | none => (badRequestResponse "Slug is required", sys)
      | some slug =>
        if (sys.tags.find? (fun t => decide (t.slug = slug))).isSome then
          (conflictResponse "Tag with this slug already exists", sys)
        else
          let t : Tag := ⟨freshId (sys.tags.map (·.id)), jsTrim name, jsTrim slug, now⟩
          (successResponse (.tagItem t) 201, { sys with tags := sys.tags ++ [t] })

/-- Tag deletion; the join rows vanish through the schema's
`ON DELETE CASCADE`, not through handler logic. -/
def handleDeleteTag (sys : Sys) (id : Int) : Response × Sys :=
  match sys.tags.find? (fun t => decide (t.id = id)) with
  | none => (notFoundResponse "Tag not found", sys)
  | some _ =>
    (successResponse (.deletedResult true),
      { sys with
        tags := sys.tags.filter (fun t => !(decide (t.id = id)))
        articleTags := sys.articleTags.filter (fun p => !(decide (p.2 = id))) })

/-! ## Article handlers (`handlers/articles.ts`) -/

def DEFAULT_PAGE_SIZE : Int := 10

/-- `parseInt(get('page') || '1')` followed by `if (page < 1) page = 1`. -/
def clampPage (q : Option Int) : Int :=
  let p := q.getD 1
  if p < 1 then 1 else p

/-- `parseInt(get('pageSize') || '10')` followed by
`if (pageSize < 1 || pageSize > 100) pageSize = DEFAULT_PAGE_SIZE`. -/
def clampPageSize (q : Option Int) : Int :=
  let s := q.getD DEFAULT_PAGE_SIZE
  if s < 1 ∨ s > 100 then DEFAULT_PAGE_SIZE else s

/-- WHERE clause of the public list query: `a.status = 'published'`, plus
the tag join condition and category condition when the corresponding
parameter is truthy (`if (params.tagId)` / `if (params.categoryId)`). -/
def articleMatchesPublic (sys : Sys) (categoryId tagId : Option Int) (a : Article) : Bool :=
  decide (a.status = .published)
  && (match tagId with
      | some t => if t = 0 then true else hasTag sys a.id t
      | none => true)
  && (match categoryId with
      | some c => if c = 0 then true else decide (a.categoryId = some c)
      | none => true)

/-- Rows of the public data query: WHERE, ORDER BY created_at DESC (before
LIMIT/OFFSET). -/
def publicArticleRows (sys : Sys) (categoryId tagId : Option Int) : List Article :=
  (sortLeB byCreatedDesc sys.articles).filter (articleMatchesPublic sys categoryId tagId)

/-- Join of article row to its category and tags, as in the per-article
`Promise.all` enrichment. -/
def enrichArticle (sys : Sys) (a : Article) : ArticleWithRels :=
  ⟨a, categoryOf sys a, articleTagsOf sys a.id⟩

def handleGetArticles (sys : Sys) (qPage qPageSize qCategoryId qTagId : Option Int) :
    Response :=
  let page := clampPage qPage
  let pageSize := clampPageSize qPageSize
  let offset := ((page - 1) * pageSize).toNat
  let rows := ((publicArticleRows sys qCategoryId qTagId).drop offset).take pageSize.toNat
  let total := (sys.articles.filter (articleMatchesPublic sys qCategoryId qTagId)).length
  successResponse (.articleList (rows.map (enrichArticle sys)) (Int.ofNat total) page pageSize)

/-- WHERE clause of the admin list query: optional category and status
filters (`if (params.categoryId)` / `if (params.status)`, both falsy-
guarded, the empty status string behaving like an absent parameter). -/
def articleMatchesAdmin (categoryId : Option Int) (status : Option String) (a : Article) : Bool :=
  (match categoryId with
    | some c => if c = 0 then true else decide (a.categoryId = some c)
    | none => true)
  && (match status with
    | some s => if s = "" then true else decide (a.status.toStr = s)
    | none => true)

def adminArticleRows (sys : Sys) (categoryId : Option Int) (status : Option String) :
    List Article :=
  (sortLeB byCreatedDesc sys.articles).filter (articleMatchesAdmin categoryId status)

def handleGetAdminArticles (sys : Sys) (qPage qPageSize qCategoryId : Option Int)
    (qStatus : Option String) : Response :=
  let page := clampPage qPage
  let pageSize := clampPageSize qPageSize
  let offset := ((page - 1) * pageSize).toNat
  let rows := ((adminArticleRows sys qCategoryId qStatus).drop offset).take pageSize.toNat
  let total := (sys.articles.filter (articleMatchesAdmin qCategoryId qStatus)).length
  successResponse (.adminArticleList rows (Int.ofNat total) page pageSize)

/-- `UPDATE articles SET view_count = view_count + 1
WHERE id = ? AND status = 'published'`. -/
def bumpViewCount (sys : Sys) (id : Int) : Sys :=
  { sys with articles := sys.articles.map (fun a =>
      if decide (a.id = id) && decide (a.status = .published) then
        { a with viewCount := a.viewCount + 1 }
      else a) }

/-- The related-articles query of `handleGetArticle`: distinct published
articles other than `id` sharing the category (`catParam` is
`article.category_id || 0`) or a tag, ordered by view count then creation
time descending, limited to 4, projected to the selected columns. -/
def relatedArticlesQuery (sys : Sys) (id : Int) (catParam : Int) : List RelatedArticle :=
  let isRelated := fun (a : Article) =>
    !(decide (a.id = id)) && decide (a.status = .published)
    && ((match a.categoryId with
          | some c => decide (c = catParam)
          | none => false)
        || sys.articleTags.any (fun p => decide (p.1 = a.id)
            && sys.articleTags.any (fun q => decide (q.1 = id) && decide (q.2 = p.2))))
  let sorted := sortLeB
    (fun a b => decide (b.viewCount < a.viewCount)
      || (decide (b.viewCount = a.viewCount) && decide (b.createdAt ≤ a.createdAt)))
    (sys.articles.filter isRelated)
  (sorted.take 4).map (fun a => ⟨a.id, a.title, a.cover, a.description, a.viewCount, a.createdAt⟩)

/-- Public article detail: the guarded view-count increment runs first,
then the row is re-read with the same `id = ? AND status = 'published'`
condition; a miss is a uniform 404. -/
def handleGetArticle (sys : Sys) (id : Int) : Response × Sys :=
  let sys1 := bumpViewCount sys id
  match sys1.articles.find? (fun a => decide (a.id = id) && decide (a.status = .published)) with
  | none => (notFoundResponse "Article not found", sys1)
  | some article =>
    (successResponse (.articleDetail article (categoryOf sys1 article)
      (articleTagsOf sys1 id) (relatedArticlesQuery sys1 id (article.categoryId.getD 0))), sys1)

def handleGetAdminArticle (sys : Sys) (id : Int) : Response :=
  match sys.articles.find? (fun a => decide (a.id = id)) with
  | none => notFoundResponse "Article not found"
  | some article =>
    successResponse (.adminArticleDetail article (articleTagsOf sys id))

/-- Validation of an article form body, shared by create and update: the
outcome is either a 400 response or the validated title/content/status
(title and content non-empty after trim, status one of the two literals). -/
def parseArticleForm (body : JsonObj) :
    Response ⊕ (String × String × ArticleStatus) :=
  match getRequiredTrimmedString body "title" with
  | none => .inl (badRequestResponse "Title is required")
  | some title =>
    match getRequiredTrimmedString body "content" with
    | none => .inl (badRequestResponse "Content is required")
    | some content =>
      match getField body "status" with
      | some (.str "draft") => .inr (title, content, .draft)
      | some (.str "published") => .inr (title, content, .published)
      | _ => .inl (badRequestResponse "Status must be draft or published")

/-- `INSERT INTO articles ... RETURNING ...` (the returned row is the
inserted row; the counters and pin flag take their schema defaults). -/
def handleCreateArticle (now : Int) (body? : Option JsonObj) (sys : Sys) :
    Response × Sys :=
  match body? with
  | none => (badRequestResponse "Invalid JSON body", sys)
  | some body =>
    match parseArticleForm body with
    | .inl r => (r, sys)
    | .inr (title, content, status) =>
      let aid := freshId (sys.articles.map (·.id))
      let article : Article := ⟨aid, jsTrim title, jsTrim content,
        getOptionalString body "cover", getOptionalNum body "category_id",
        getOptionalTrimmedString body "description",
        getOptionalTrimmedString body "keywords", status, 0, 0, false, now, now⟩
      let tagIds := (getNumArr body "tag_ids").getD []
      let sys1 : Sys :=
        { sys with
          articles := sys.articles ++ [article]
          articleTags := sys.articleTags ++
            (if tagIds.length > 0 then tagIds.map (fun t => (aid, t)) else []) }
      (successResponse (.articleSaved article (articleTagsOf sys1 aid)) 201, sys1)

/-- `UPDATE articles SET ... WHERE id = ?` plus wholesale tag-set
replacement (delete all join rows for the article, insert the new set). -/
def handleUpdateArticle (now : Int) (body? : Option JsonObj) (sys : Sys) (id : Int) :
    Response × Sys :=
  match body? with
  | none => (badRequestResponse "Invalid JSON body", sys)
  | some body =>
    match parseArticleForm body with
    | .inl r => (r, sys)
    | .inr (title, content, status) =>
      match sys.articles.find? (fun a => decide (a.id = id)) with
      | none => (notFoundResponse "Article not found", sys)
      | some existing =>
        let updatedRow := fun (a : Article) =>
          { a with
            title := jsTrim title
            content := jsTrim content
            cover := getOptionalString body "cover"
            categoryId := getOptionalNum body "category_id"
            description := getOptionalTrimmedString body "description"
            keywords := getOptionalTrimmedString body "keywords"
            status := status
            updatedAt := now }
        let tagIds := (getNumArr body "tag_ids").getD []
        let sys1 : Sys :=
          { sys with
            articles := sys.articles.map (fun a =>
              if decide (a.id = id) then updatedRow a else a)
            articleTags := (sys.articleTags.filter (fun p => !(decide (p.1 = id)))) ++
              (if tagIds.length > 0 then tagIds.map (fun t => (id, t)) else []) }
        (successResponse (.articleSaved (updatedRow existing) (articleTagsOf sys1 id)), sys1)

/-- `DELETE FROM articles WHERE id = ?`; join rows vanish via the schema's
cascade. -/
def handleDeleteArticle (sys : Sys) (id : Int) : Response × Sys :=
  match sys.articles.find? (fun a => decide (a.id = id)) with
  | none => (notFoundResponse "Article not found", sys)
  | some _ =>
    (successResponse (.deletedResult true),
      { sys with
        articles := sys.articles.filter (fun a => !(decide (a.id = id)))
        articleTags := sys.articleTags.filter (fun p => !(decide (p.1 = id))) })

/-- Action parsing of the like endpoint: the default is `'like'`; only a
parsed body whose `action` field is exactly the string `'unlike'` switches
to unlike, and a body on which `request.json()` throws is swallowed. -/
def likeActionOf (body? : Option JsonObj) : String :=
  match body? with
  | some body =>
    match getField body "action" with
    | some (.str "unlike") => "unlike"
    | _ => "like"
  | none => "like"

def handleLikeArticle (body? : Option JsonObj) (sys : Sys) (id : Int) :
    Response × Sys :=
  let action := likeActionOf body?
  match sys.articles.find? (fun a => decide (a.id = id) && decide (a.status = .published)) with
  | none => (notFoundResponse "Article not found", sys)
  | some article =>
    let currentLikes := article.likeCount
    if action = "unlike" then
      let newLikeCount := max 0 (currentLikes - 1)
      (successResponse (.likeResult false newLikeCount),
        { sys with articles := sys.articles.map (fun a =>
            if decide (a.id = id) then { a with likeCount := newLikeCount } else a) })
    else
      let newLikeCount := currentLikes + 1
      (successResponse (.likeResult true newLikeCount),
        { sys with articles := sys.articles.map (fun a =>
            if decide (a.id = id) then { a with likeCount := a.likeCount + 1 } else a) })

def handlePinArticle (sys : Sys) (id : Int) : Response × Sys :=
  match sys.articles.find? (fun a => decide (a.id = id)) with
  | none => (notFoundResponse "Article not found", sys)
  | some article =>
    let newPinned := !article.isPinned
    (successResponse (.pinResult newPinned
        (if newPinned then "Article pinned" else "Article unpinned")),
      { sys with articles := sys.articles.map (fun a =>
          if decide (a.id = id) then { a with isPinned := newPinned } else a) })

/-! ## Login handler (`handlers/auth.ts`)

The bcrypt `compare(password, hash)` call is an external primitive, kept
abstract as an oracle every theorem quantifies over. -/

/-- `validateStringLength(value, field)` against `INPUT_LIMITS[field]`;
returns the error message on failure. -/
def validateStringLength (value field : String) (minLen maxLen : Nat) : Option String :=
  if value.length < minLen then
    some (field ++ " must be at least " ++ toString minLen ++ " characters")
  else if value.length > maxLen then
    some (field ++ " must not exceed " ++ toString maxLen ++ " characters")
  else
    none

def handleLogin (bcryptCompare : String → String → Bool) (jwtSecret : String)
    (nowMs : Nat) (method : String) (body? : Option JsonObj) (sys : Sys) : Response :=
  if !(method = "POST") then badRequestResponse "Method not allowed"
  else
    match body? with
    | none => badRequestResponse "Invalid JSON body"
    | some body =>
      match getRequiredString body "username" with
      | none => badRequestResponse "Username is required"
      | some username =>
        match getRequiredString body "password" with
        | none => badRequestResponse "Password is required"
        | some password =>
          match validateStringLength username "username" 1 50 with
          | some msg => badRequestResponse msg
          | none =>
            match validateStringLength password "password" 6 100 with
            | some msg => badRequestResponse msg
            | none =>
              match sys.admins.find? (fun a => decide (a.username = username)) with
              | none => unauthorizedResponse "Invalid username or password"
              | some admin =>
                if !(bcryptCompare password admin.passwordHash) then
                  unauthorizedResponse "Invalid username or password"
                else
                  let nowSec : Int := Int.ofNat (nowMs / 1000)
                  let token := signToken (toString admin.id) admin.username jwtSecret nowSec
                  successResponse (.loginResult token (nowSec + getTokenExpirationSeconds))

/-! ## Upload handler (`handlers/upload.ts`) -/

def ALLOWED_MIME_TYPES : List String :=
  ["image/jpeg", "image/png", "image/gif", "image/webp", "image/svg+xml"]

/-- `MAX_FILE_SIZE = 10 * 1024 * 1024`. -/
def MAX_FILE_SIZE : Nat := 10 * 1024 * 1024

def mimeToExt (mimeType : String) : String :=
  if mimeType = "image/jpeg" then ".jpg"
  else if mimeType = "image/png" then ".png"
  else if mimeType = "image/gif" then ".gif"
  else if mimeType = "image/webp" then ".webp"
  else if mimeType = "image/svg+xml" then ".svg"
  else ".bin"

def isValidImageType (mimeType : String) : Bool :=
  ALLOWED_MIME_TYPES.contains mimeType

def isValidFileSize (size : Nat) : Bool :=
  decide (0 < size) && decide (size ≤ MAX_FILE_SIZE)

/-- `generateUniqueFilename`: timestamp, dash, random suffix, extension. -/
def generateUniqueFilename (nowMs : Nat) (rand : String) (mimeType : String) : String :=
  toString nowMs ++ "-" ++ rand ++ mimeToExt mimeType

def invalidTypeMessage : String :=
  "Invalid file type. Allowed types: image/jpeg, image/png, image/gif, image/webp, image/svg+xml"

/-- `` `File too large. Maximum size: ${MAX_FILE_SIZE / 1024 / 1024}MB` ``. -/
def fileTooLargeMessage : String :=
  "File too large. Maximum size: " ++ toString (MAX_FILE_SIZE / 1024 / 1024) ++ "MB"

def handleUpload (nowMs : Nat) (rand : String) (method : String)
    (contentTypeHeader : Option String) (formFile : Option MultipartFile)
    (bodySize : Nat) (sys : Sys) : Response × Sys :=
  if !(method = "POST") then (badRequestResponse "Method not allowed", sys)
  else
    let contentType := contentTypeHeader.getD ""
    if jsIncludes contentType "multipart/form-data" then
      match formFile with
      | none => (badRequestResponse "No file provided", sys)
      | some file =>
        if !(isValidImageType file.fileType) then
          (badRequestResponse invalidTypeMessage, sys)
        else if !(isValidFileSize file.fileSize) then
          (badRequestResponse fileTooLargeMessage, sys)
        else
          let filename := generateUniqueFilename nowMs rand file.fileType
          (successResponse (.uploadResult ("/uploads/" ++ filename) filename) 201,
            { sys with bucket := sys.bucket ++ [⟨filename, file.fileSize, file.fileType⟩] })
    else
      let mimeType := jsTrim ⟨contentType.data.takeWhile (fun c => !(c = ';'))⟩
      if !(isValidImageType mimeType) then
        (badRequestResponse invalidTypeMessage, sys)
      else if !(isValidFileSize bodySize) then
        (badRequestResponse fileTooLargeMessage, sys)
      else
        let filename := generateUniqueFilename nowMs rand mimeType
        (successResponse (.uploadResult ("/uploads/" ++ filename) filename) 201,
          { sys with bucket := sys.bucket ++ [⟨filename, bodySize, mimeType⟩] })

/-! ## Dispatcher (`index.ts`) -/

/-- `extractIdFromPath(pathname, p)`: the regex `^p/(\d+)$`, i.e. the
path is `p`, a slash, and one or more digits, parsed as the id. -/
def extractIdFromPath (pathname pre : String) : Option Int :=
  let preSlash := pre.data ++ ['/']
  if preSlash.isPrefixOf pathname.data then
    let rest := pathname.data.drop preSlash.length
    if rest ≠ [] ∧ rest.all Char.isDigit then some (Int.ofNat (digitsVal rest)) else none
  else none

/-- A pattern `^pre(\d+)tail$` (used by the like and pin routes). -/
def matchSegment (pathname pre tail : String) : Option Int :=
  if pre.data.isPrefixOf pathname.data then
    let rest := pathname.data.drop pre.data.length
    let digits := rest.takeWhile Char.isDigit
    if digits ≠ [] ∧ rest.dropWhile Char.isDigit = tail.data then
      some (Int.ofNat (digitsVal digits))
    else none
  else none

/-- The guard of the protected region of `handleRequest`. -/
def isProtectedPath (pathname : String) : Bool :=
  jsStartsWith pathname "/api/admin/" || decide (pathname = "/api/upload")

/-- The route checks of the protected region of `handleRequest`, in source
order, entered only after the authorization gate succeeded.  A protected
path matching none of them falls through past the (there unmatchable)
health check to the final 404, which is therefore inlined at the end. -/
def protectedRoutes (nowMs : Nat) (rand : String) (req : Request) (sys : Sys) :
    Response × Sys :=
  let pathname := req.path
  let method := req.method
  let nowSec : Int := Int.ofNat (nowMs / 1000)
  if pathname = "/api/upload" ∧ method = "POST" then
    if !(checkRequestBodySize req.contentLength MAX_UPLOAD_SIZE) then
      (payloadTooLargeResponse "File too large. Maximum size: 10MB", sys)
    else
      handleUpload nowMs rand method req.contentType req.formFile req.bodySize sys
  else if pathname = "/api/admin/articles" ∧ method = "GET" then
    (handleGetAdminArticles sys req.qPage req.qPageSize req.qCategoryId req.qStatus, sys)
  else if pathname = "/api/admin/article" ∧ method = "POST" then
    handleCreateArticle nowSec req.jsonBody sys
  else if (extractIdFromPath pathname "/api/admin/article").isSome ∧ method = "GET" then
    (handleGetAdminArticle sys
      ((extractIdFromPath pathname "/api/admin/article").getD 0), sys)
  else if (extractIdFromPath pathname "/api/admin/article").isSome ∧ method = "PUT" then
    handleUpdateArticle nowSec req.jsonBody sys
      ((extractIdFromPath pathname "/api/admin/article").getD 0)
  else if (extractIdFromPath pathname "/api/admin/article").isSome ∧ method = "DELETE" then
    handleDeleteArticle sys ((extractIdFromPath pathname "/api/admin/article").getD 0)
  else if (matchSegment pathname "/api/admin/article/" "/pin").isSome ∧ method = "POST" then
    handlePinArticle sys ((matchSegment pathname "/api/admin/article/" "/pin").getD 0)
  else if pathname = "/api/admin/category" ∧ method = "POST" then
    handleCreateCategory nowSec req.jsonBody sys
  else if (extractIdFromPath pathname "/api/admin/category").isSome ∧ method = "PUT" then
    handleUpdateCategory req.jsonBody sys
      ((extractIdFromPath pathname "/api/admin/category").getD 0)
  else if (extractIdFromPath pathname "/api/admin/category").isSome ∧ method = "DELETE" then
    handleDeleteCategory sys ((extractIdFromPath pathname "/api/admin/category").getD 0)
  else if pathname = "/api/admin/tag" ∧ method = "POST" then
    handleCreateTag nowSec req.jsonBody sys
  else if (extractIdFromPath pathname "/api/admin/tag").isSome ∧ method = "DELETE" then
    handleDeleteTag sys ((extractIdFromPath pathname "/api/admin/tag").getD 0)
  else
    (notFoundResponse "Endpoint not found", sys)

/-- `handleRequest(request, env)`: the route table of `index.ts`, in source
order, with the protected region factored into `protectedRoutes`. -/
def handleRequest (verify : String → String → Option JWTPayload)
    (bcryptCompare : String → String → Bool) (jwtSecret : String)
    (nowMs : Nat) (rand : String) (req : Request) (sys : Sys) : Response × Sys :=
  let pathname := req.path
  let method := req.method
  if pathname = "/api/login" ∧ method = "POST" then
    let clientIP := getClientIP req.cfConnectingIP req.xForwardedFor
    let rl := checkRateLimit nowMs ("login:" ++ clientIP) ⟨5, 60000⟩ sys.rateStore
    let sys1 := { sys with rateStore := rl.2 }
    if !rl.1.allowed then
      let retryAfter := (rl.1.resetTime - nowMs + 999) / 1000
      (tooManyRequestsResponse "Too many login attempts. Please try again later."
        retryAfter, sys1)
    else if !(checkRequestBodySize req.contentLength MAX_REQUEST_BODY_SIZE) then
      (payloadTooLargeResponse "Request body too large", sys1)
    else
      (handleLogin bcryptCompare jwtSecret nowMs method req.jsonBody sys1, sys1)
  else if pathname = "/api/articles" ∧ method = "GET" then
    (handleGetArticles sys req.qPage req.qPageSize req.qCategoryId req.qTagId, sys)
  else if (extractIdFromPath pathname "/api/article").isSome ∧ method = "GET" then
    handleGetArticle sys ((extractIdFromPath pathname "/api/article").getD 0)
  else if (matchSegment pathname "/api/article/" "/like").isSome ∧ method = "POST" then
    handleLikeArticle req.jsonBody sys
      ((matchSegment pathname "/api/article/" "/like").getD 0)
  else if pathname = "/api/categories" ∧ method = "GET" then
    (handleGetCategories sys, sys)
  else if (extractIdFromPath pathname "/api/category").isSome ∧ method = "GET" then
    (handleGetCategory sys ((extractIdFromPath pathname "/api/category").getD 0), sys)
  else if pathname = "/api/tags" ∧ method = "GET" then
    (handleGetTags sys, sys)
  else if (extractIdFromPath pathname "/api/tag").isSome ∧ method = "GET" then
    (handleGetTag sys ((extractIdFromPath pathname "/api/tag").getD 0), sys)
  else if isProtectedPath pathname then
    match authMiddleware verify req.authorization jwtSecret with
    | .errResponse r => (r, sys)
    | .okUser _user => protectedRoutes nowMs rand req sys
  else if pathname = "/api/health" ∧ method = "GET" then
    (successResponse .healthResult, sys)
  else
    (notFoundResponse "Endpoint not found", sys)

/-! ## Helper lemmas about the building blocks -/

theorem mem_insertLeB {α : Type} (le : α → α → Bool) (x : α) (l : List α) (a : α) :
    a ∈ insertLeB le x l ↔ a = x ∨ a ∈ l := by
  induction l with
  | nil => simp [insertLeB]
  | cons y ys ih =>
    simp only [insertLeB]
    split
    · simp
    · simp only [List.mem_cons, ih]
      tauto

theorem length_insertLeB {α : Type} (le : α → α → Bool) (x : α) (l : List α) :
    (insertLeB le x l).length = l.length + 1 := by
  induction l with
  | nil => simp [insertLeB]
  | cons y ys ih =>
    simp only [insertLeB]
    split
    · simp
    · simp [ih]

theorem mem_sortLeB {α : Type} (le : α → α → Bool) (l : List α) (a : α) :
    a ∈ sortLeB le l ↔ a ∈ l := by
  induction l with
  | nil => simp [sortLeB]
  | cons y ys ih =>
    simp only [sortLeB, mem_insertLeB, ih, List.mem_cons]

theorem length_sortLeB {α : Type} (le : α → α → Bool) (l : List α) :
    (sortLeB le l).length = l.length := by
  induction l with
  | nil => simp [sortLeB]
  | cons y ys ih =>
    simp only [sortLeB, length_insertLeB, ih, List.length_cons]

/-! ## C10: bearer-token extraction -/

/-- C10: `extractBearerToken` returns a token exactly when the
Authorization header value starts with the case-sensitive literal
`"Bearer "` (its first seven characters are that literal) and the
remainder after the prefix is non-empty after trimming; in particular a
lowercase `bearer` scheme, a `Basic` scheme, and `Bearer` followed only by
spaces all yield `none`, and each of those therefore draws the
missing-or-invalid-header 401 from the authorization gate, whatever the
token verifier would say. -/
theorem extractBearerToken_spec :
    (∀ h : Option String, (∃ t, extractBearerToken h = some t) ↔
      (∃ s, h = some s ∧ s.data.take 7 = "Bearer ".data ∧
        jsTrim (String.mk (s.data.drop 7)) ≠ ""))
    ∧ extractBearerToken (some "bearer abc") = none
    ∧ extractBearerToken (some "Basic dXNlcjpwYXNz") = none
    ∧ extractBearerToken (some "Bearer   ") = none
    ∧ extractBearerToken (some "Bearer abc") = some "abc"
    ∧ (∀ verify secret, authMiddleware verify (some "bearer abc") secret =
        .errResponse (unauthorizedResponse "Missing or invalid authorization header"))
    ∧ (∀ verify secret, authMiddleware verify (some "Basic dXNlcjpwYXNz") secret =
        .errResponse (unauthorizedResponse "Missing or invalid authorization header"))
    ∧ (∀ verify secret, authMiddleware verify (some "Bearer   ") secret =
        .errResponse (unauthorizedResponse "Missing or invalid authorization header")) := by
  refine ⟨?_, by decide, by decide, by decide, by decide, ?_, ?_, ?_⟩
  · intro h
    constructor
    · rintro ⟨t, ht⟩
      cases h with
      | none => simp [extractBearerToken] at ht
      | some s =>
        simp only [extractBearerToken] at ht
        by_cases hpre : jsStartsWith s "Bearer " = true
        · rw [if_pos hpre] at ht
          by_cases hemp : jsTrim (jsSlice s 7) = ""
          · rw [if_pos hemp] at ht
            exact absurd ht (by simp)
          · refine ⟨s, rfl, ?_, ?_⟩
            · unfold jsStartsWith at hpre
              have hp := ( List.isPrefixOf_iff_prefix).1 hpre
              have := List.prefix_iff_eq_take.1 hp
              have h7 : ("Bearer ".data).length = 7 := by decide
              rw [h7] at this
              exact this.symm
            · exact hemp
        · rw [if_neg hpre] at ht
          exact absurd ht (by simp)
    · rintro ⟨s, rfl, htake, hne⟩
      have hpre : jsStartsWith s "Bearer " = true := by
        unfold jsStartsWith
        rw [ List.isPrefixOf_iff_prefix, List.prefix_iff_eq_take]
        have h7 : ("Bearer ".data).length = 7 := by decide
        rw [h7]
        exact htake.symm
      refine ⟨jsTrim (jsSlice s 7), ?_⟩
      simp only [extractBearerToken, hpre, if_pos]
      have hne' : ¬ jsTrim (jsSlice s 7) = "" := hne
      rw [if_neg hne']
  · intro verify secret
    rfl
  · intro verify secret
    rfl
  · intro verify secret
    rfl

/-! ## C3: category deletion with referencing articles -/

/-- C3: when the category exists and at least one article references it,
`handleDeleteCategory` answers 409 CONFLICT with the referencing count
embedded in the message and leaves the whole state (in particular the
category row) untouched; with no referencing article it deletes exactly
that category row; with an unknown id it answers 404. -/
theorem handleDeleteCategory_spec (sys : Sys) (id : Int) :
    (∀ c, sys.categories.find? (fun c => decide (c.id = id)) = some c →
      0 < referencingArticleCount sys id →
      handleDeleteCategory sys id =
        (conflictResponse ("Cannot delete category: " ++
          toString (referencingArticleCount sys id) ++
          " article(s) are using this category"), sys))
    ∧ (∀ c, sys.categories.find? (fun c => decide (c.id = id)) = some c →
      referencingArticleCount sys id = 0 →
      (handleDeleteCategory sys id).1 = successResponse (.deletedResult true)
      ∧ (∀ c' ∈ (handleDeleteCategory sys id).2.categories, c'.id ≠ id)
      ∧ (∀ c' ∈ (handleDeleteCategory sys id).2.categories, c' ∈ sys.categories)
      ∧ (handleDeleteCategory sys id).2.articles = sys.articles)
    ∧ (sys.categories.find? (fun c => decide (c.id = id)) = none →
      handleDeleteCategory sys id = (notFoundResponse "Category not found", sys)) := by
  refine ⟨?_, ?_, ?_⟩
  · intro c hfind hcount
    simp only [handleDeleteCategory, hfind]
    rw [if_pos hcount]
  · intro c hfind hcount
    simp only [handleDeleteCategory, hfind]
    rw [if_neg (by omega)]
    refine ⟨rfl, ?_, ?_, rfl⟩
    · intro c' hc'
      simp only [List.mem_filter] at hc'
      have := hc'.2
      simp only [Bool.not_eq_true', decide_eq_false_iff_not] at this
      exact this
    · intro c' hc'
      exact (List.mem_filter.1 hc').1
  · intro hfind
    simp only [handleDeleteCategory, hfind]

/-- Concrete state for the C3 witness: category 1 referenced by one article. -/
def witnessSysC3 : Sys :=
  ⟨[⟨1, "t", "c", none, some 1, none, none, .draft, 0, 0, false, 0, 0⟩],
    [⟨1, "Tech", "tech", none, 0⟩], [], [], [], [], []⟩

/-- C3 witness: deleting category 1 of `witnessSysC3` is refused with the
count-bearing conflict message and the state survives unchanged. -/
theorem handleDeleteCategory_spec_witness :
    handleDeleteCategory witnessSysC3 1 =
      (conflictResponse ("Cannot delete category: " ++
        toString (referencingArticleCount witnessSysC3 1) ++
        " article(s) are using this category"), witnessSysC3) :=
  (handleDeleteCategory_spec witnessSysC3 1).1 ⟨1, "Tech", "tech", none, 0⟩
    (by decide) (by decide)

/-! ## C2: the public article list only ever shows published articles -/

/-- C2: whatever the page, pageSize, categoryId and tagId parameters and
whatever the database contains, every article in the data array of the
public list response has status `published`. -/
theorem handleGetArticles_only_published (sys : Sys)
    (qPage qPageSize qCategoryId qTagId : Option Int) :
    ∃ data total page pageSize,
      handleGetArticles sys qPage qPageSize qCategoryId qTagId =
        successResponse (.articleList data total page pageSize)
      ∧ ∀ w ∈ data, w.article.status = .published := by
  refine ⟨_, _, _, _, rfl, ?_⟩
  intro w hw
  simp only [List.mem_map] at hw
  obtain ⟨a, ha, rfl⟩ := hw
  have ha2 := List.mem_of_mem_drop (List.mem_of_mem_take ha)
  rw [publicArticleRows, List.mem_filter] at ha2
  have hmatch := ha2.2
  rw [articleMatchesPublic.eq_def] at hmatch
  simp only [Bool.and_eq_true, decide_eq_true_eq] at hmatch
  exact hmatch.1.1

/-! ## C6: guarded view-count increment and the uniform public 404 -/

theorem find?_published_none {l : List Article} {id : Int}
    (h : ∀ a ∈ l, ¬(a.id = id ∧ a.status = .published)) :
    l.find? (fun a => decide (a.id = id) && decide (a.status = .published)) = none := by
  rw [List.find?_eq_none]
  intro a ha
  simp only [Bool.and_eq_true, decide_eq_true_eq]
  exact h a ha

theorem bumpViewCount_id_of_none {sys : Sys} {id : Int}
    (h : ∀ a ∈ sys.articles, ¬(a.id = id ∧ a.status = .published)) :
    bumpViewCount sys id = sys := by
  have hmap : sys.articles.map (fun a =>
      if decide (a.id = id) && decide (a.status = .published) then
        { a with viewCount := a.viewCount + 1 }
      else a) = sys.articles := by
    have hcg : sys.articles.map (fun a =>
        if decide (a.id = id) && decide (a.status = .published) then
          { a with viewCount := a.viewCount + 1 } else a) =
        sys.articles.map (fun a => a) := by
      apply List.map_congr_left
      intro a ha
      have hcond : ¬((decide (a.id = id) && decide (a.status = .published)) = true) := by
        simp only [Bool.and_eq_true, decide_eq_true_eq]
        exact h a ha
      exact if_neg hcond
    rw [hcg, List.map_id']
  simp only [bumpViewCount, hmap]

theorem handleGetArticle_notFound {sys : Sys} {id : Int}
    (h : ∀ a ∈ sys.articles, ¬(a.id = id ∧ a.status = .published)) :
    handleGetArticle sys id = (notFoundResponse "Article not found", sys) := by
  simp only [handleGetArticle, bumpViewCount_id_of_none h, find?_published_none h]

theorem handleGetArticle_snd (sys : Sys) (id : Int) :
    (handleGetArticle sys id).2 = bumpViewCount sys id := by
  simp only [handleGetArticle]
  rcases hfind : (bumpViewCount sys id).articles.find? (fun a =>
      decide (a.id = id) && decide (a.status = .published)) with _ | x <;>
    simp only [hfind]

/-- C6: the public detail handler increments `view_count` by exactly one
precisely when a published article with the requested id exists (the
UPDATE being guarded by `id = ? AND status = 'published'`): on a hit the
response is a 200 carrying data and the matching row gains one view while
every row with another id — and every draft row — survives unchanged with
no row added or removed; when no published article has the id the result
is exactly `(404 "Article not found")` with the state untouched, so the
404 of an absent id and the 404 of a draft are the same response. -/
theorem handleGetArticle_spec (sys : Sys) (id : Int) :
    ((∀ a ∈ sys.articles, ¬(a.id = id ∧ a.status = .published)) →
      handleGetArticle sys id = (notFoundResponse "Article not found", sys))
    ∧ (∀ a ∈ sys.articles, a.id = id → a.status = .published →
        (handleGetArticle sys id).1.status = 200
        ∧ { a with viewCount := a.viewCount + 1 } ∈ (handleGetArticle sys id).2.articles)
    ∧ (∀ b ∈ sys.articles, b.id ≠ id → b ∈ (handleGetArticle sys id).2.articles)
    ∧ (∀ b ∈ sys.articles, b.status = .draft → b ∈ (handleGetArticle sys id).2.articles)
    ∧ (handleGetArticle sys id).2.articles.length = sys.articles.length
    ∧ (∀ (sys2 : Sys) (id2 : Int),
        (∀ a ∈ sys.articles, ¬(a.id = id ∧ a.status = .published)) →
        (∀ a ∈ sys2.articles, ¬(a.id = id2 ∧ a.status = .published)) →
        (handleGetArticle sys id).1 = (handleGetArticle sys2 id2).1) := by
  have hmem : ∀ a ∈ sys.articles,
      (if decide (a.id = id) && decide (a.status = .published) then
        { a with viewCount := a.viewCount + 1 }
      else a) ∈ (bumpViewCount sys id).articles := by
    intro a ha
    simp only [bumpViewCount]
    exact List.mem_map_of_mem _ ha
  refine ⟨fun h => handleGetArticle_notFound h, ?_, ?_, ?_, ?_, ?_⟩
  · intro a ha hid hpub
    have hcond : (decide (a.id = id) && decide (a.status = .published)) = true := by
      simp [hid, hpub]
    have hsome : ((bumpViewCount sys id).articles.find? (fun a =>
        decide (a.id = id) && decide (a.status = .published))).isSome := by
      rw [List.find?_isSome]
      refine ⟨{ a with viewCount := a.viewCount + 1 }, ?_, by simp [hid, hpub]⟩
      have hm := hmem a ha
      rwa [if_pos hcond] at hm
    obtain ⟨x, hx⟩ := Option.isSome_iff_exists.1 hsome
    constructor
    · simp only [handleGetArticle, hx]
      rfl
    · rw [handleGetArticle_snd]
      have hm := hmem a ha
      rwa [if_pos hcond] at hm
  · intro b hb hbid
    have hcond : ¬((decide (b.id = id) && decide (b.status = .published)) = true) := by
      simp only [Bool.and_eq_true, decide_eq_true_eq]
      exact fun hc => hbid hc.1
    have hmb := hmem b hb
    rw [if_neg hcond] at hmb
    rw [handleGetArticle_snd]
    exact hmb
  · intro b hb hbdraft
    have hcond : ¬((decide (b.id = id) && decide (b.status = .published)) = true) := by
      simp only [Bool.and_eq_true, decide_eq_true_eq]
      rintro ⟨-, hp⟩
      rw [hbdraft] at hp
      exact absurd hp (by decide)
    have hmb := hmem b hb
    rw [if_neg hcond] at hmb
    rw [handleGetArticle_snd]
    exact hmb
  · rw [handleGetArticle_snd]
    simp only [bumpViewCount, List.length_map]
  · intro sys2 id2 h1 h2
    rw [handleGetArticle_notFound h1, handleGetArticle_notFound h2]

/-- Concrete state for the C6 witness: one published article with id 1 and
five views. -/
def witnessSysC6 : Sys :=
  ⟨[⟨1, "t", "c", none, none, none, none, .published, 5, 0, false, 0, 0⟩],
    [], [], [], [], [], []⟩

/-- C6 witness: fetching the published article 1 answers 200 and the row
reappears with six views. -/
theorem handleGetArticle_spec_witness :
    (handleGetArticle witnessSysC6 1).1.status = 200 ∧
    (⟨1, "t", "c", none, none, none, none, .published, 5 + 1, 0, false, 0, 0⟩ : Article) ∈
      (handleGetArticle witnessSysC6 1).2.articles :=
  (handleGetArticle_spec witnessSysC6 1).2.1
    ⟨1, "t", "c", none, none, none, none, .published, 5, 0, false, 0, 0⟩
    (by decide) (by decide) (by decide)

/-! ## C9: like-action parsing, floor at zero, no 400 -/

theorem likeActionOf_eq_like {body : JsonObj}
    (h : getField body "action" ≠ some (.str "unlike")) :
    likeActionOf (some body) = "like" := by
  simp only [likeActionOf]

/-- C9: against an existing published article the like endpoint treats an
absent or unparseable body, and any body whose `action` is not exactly the
string `unlike`, as a like (count goes up by one, in the response and in
the stored row); only `action == 'unlike'` decrements, floored at zero;
and no request body whatsoever draws a 400 from this handler. -/
theorem handleLikeArticle_spec (sys : Sys) (id : Int) :
    (∀ a, sys.articles.find? (fun a =>
        decide (a.id = id) && decide (a.status = .published)) = some a →
      ((handleLikeArticle none sys id).1 =
        successResponse (.likeResult true (a.likeCount + 1)))
      ∧ (∀ body : JsonObj, getField body "action" ≠ some (.str "unlike") →
          (handleLikeArticle (some body) sys id).1 =
            successResponse (.likeResult true (a.likeCount + 1)))
      ∧ (∀ body : JsonObj, getField body "action" = some (.str "unlike") →
          (handleLikeArticle (some body) sys id).1 =
            successResponse (.likeResult false (max 0 (a.likeCount - 1)))
          ∧ 0 ≤ max 0 (a.likeCount - 1))
      ∧ ({ a with likeCount := a.likeCount + 1 } ∈
          (handleLikeArticle none sys id).2.articles))
    ∧ (∀ body? : Option JsonObj, (handleLikeArticle body? sys id).1.status ≠ 400) := by
  constructor
  · intro a hfind
    have hid : a.id = id := by
      have hp := List.find?_some hfind
      simp only [Bool.and_eq_true, decide_eq_true_eq] at hp
      exact hp.1
    have hmema : a ∈ sys.articles := List.mem_of_find?_eq_some hfind
    refine ⟨?_, ?_, ?_, ?_⟩
    · simp only [handleLikeArticle, likeActionOf, hfind]
      rw [if_neg (by decide : ¬(("like" : String) = "unlike"))]
    · intro body hbody
      simp only [handleLikeArticle, likeActionOf_eq_like hbody, hfind]
      rw [if_neg (by decide : ¬(("like" : String) = "unlike"))]
    · intro body hbody
      have haction : likeActionOf (some body) = "unlike" := by
        simp only [likeActionOf, hbody]
      constructor
      · simp only [handleLikeArticle, haction, hfind]
        simp
      · exact le_max_left 0 _
    · simp only [handleLikeArticle, likeActionOf, hfind]
      rw [if_neg (by decide : ¬(("like" : String) = "unlike"))]
      exact List.mem_map.2 ⟨a, hmema, by simp [hid]⟩
  · intro body?
    simp only [handleLikeArticle]
    rcases hfind : sys.articles.find? (fun a =>
        decide (a.id = id) && decide (a.status = .published)) with _ | a
    · simp [hfind, notFoundResponse, errorResponse]
    · simp only [hfind]
      split
      · simp [successResponse]
      · simp [successResponse]

/-- Concrete state for the C9 witness: published article 1 with three
likes. -/
def witnessSysC9 : Sys :=
  ⟨[⟨1, "t", "c", none, none, none, none, .published, 0, 3, false, 0, 0⟩],
    [], [], [], [], [], []⟩

/-- C9 witness: with a malformed body the like endpoint on article 1 of
`witnessSysC9` likes (3 → 4) rather than answering 400. -/
theorem handleLikeArticle_spec_witness :
    (handleLikeArticle none witnessSysC9 1).1 =
      successResponse (.likeResult true (3 + 1)) :=
  ((handleLikeArticle_spec witnessSysC9 1).1
    ⟨1, "t", "c", none, none, none, none, .published, 0, 3, false, 0, 0⟩
    (by decide)).1

/-! ## C5: pagination clamping, page length, totals -/

theorem clampPage_ge_one (q : Option Int) : 1 ≤ clampPage q := by
  unfold clampPage
  rcases q with _ | n
  · simp
  · simp only [Option.getD_some]
    split <;> omega

theorem clampPageSize_bounds (q : Option Int) :
    1 ≤ clampPageSize q ∧ clampPageSize q ≤ 100 := by
  unfold clampPageSize DEFAULT_PAGE_SIZE
  rcases q with _ | n
  · simp
  · simp only [Option.getD_some]
    split <;> omega

/-- C5: in both list handlers the effective page is at least 1 (absent or
sub-1 parameters become 1, in-range parameters pass through), the
effective pageSize lies in [1, 100] (absent or out-of-range parameters
become the default 10, in-range parameters pass through), the data array
never exceeds the effective pageSize, the data is the
`offset = (page − 1) × pageSize` window of the ordered matching rows, and
the reported total counts every row matching the same filter predicate
with no LIMIT/OFFSET applied. -/
theorem pagination_spec (sys : Sys) (qPage qPageSize qCategoryId qTagId : Option Int)
    (qStatus : Option String) :
    (∃ data total page pageSize,
      handleGetArticles sys qPage qPageSize qCategoryId qTagId =
        successResponse (.articleList data total page pageSize)
      ∧ 1 ≤ page ∧ 1 ≤ pageSize ∧ pageSize ≤ 100
      ∧ (qPage = none → page = 1)
      ∧ (∀ n, qPage = some n → n < 1 → page = 1)
      ∧ (∀ n, qPage = some n → 1 ≤ n → page = n)
      ∧ (qPageSize = none → pageSize = 10)
      ∧ (∀ n, qPageSize = some n → (n < 1 ∨ 100 < n) → pageSize = 10)
      ∧ (∀ n, qPageSize = some n → 1 ≤ n → n ≤ 100 → pageSize = n)
      ∧ data.length ≤ pageSize.toNat
      ∧ total = Int.ofNat (sys.articles.countP (articleMatchesPublic sys qCategoryId qTagId))
      ∧ data.map (fun w => w.article) =
          ((publicArticleRows sys qCategoryId qTagId).drop
            ((page - 1) * pageSize).toNat).take pageSize.toNat)
    ∧ (∃ data total page pageSize,
      handleGetAdminArticles sys qPage qPageSize qCategoryId qStatus =
        successResponse (.adminArticleList data total page pageSize)
      ∧ 1 ≤ page ∧ 1 ≤ pageSize ∧ pageSize ≤ 100
      ∧ (qPage = none → page = 1)
      ∧ (qPageSize = none → pageSize = 10)
      ∧ data.length ≤ pageSize.toNat
      ∧ total = Int.ofNat (sys.articles.countP (articleMatchesAdmin qCategoryId qStatus))
      ∧ data =
          ((adminArticleRows sys qCategoryId qStatus).drop
            ((page - 1) * pageSize).toNat).take pageSize.toNat) := by
  constructor
  · refine ⟨_, _, _, _, rfl, clampPage_ge_one qPage, (clampPageSize_bounds qPageSize).1,
      (clampPageSize_bounds qPageSize).2, ?_, ?_, ?_, ?_, ?_, ?_, ?_, ?_, ?_⟩
    · intro h
      simp [clampPage, h]
    · intro n h hlt
      simp [clampPage, h, hlt]
    · intro n h hge
      simp [clampPage, h]
      omega
    · intro h
      simp [clampPageSize, h, DEFAULT_PAGE_SIZE]
    · intro n h hout
      simp only [clampPageSize, h, Option.getD_some, DEFAULT_PAGE_SIZE]
      rw [if_pos (by omega)]
    · intro n h h1 h100
      simp only [clampPageSize, h, Option.getD_some, DEFAULT_PAGE_SIZE]
      rw [if_neg (by omega)]
    · calc (((((publicArticleRows sys qCategoryId qTagId).drop
            ((clampPage qPage - 1) * clampPageSize qPageSize).toNat).take
            (clampPageSize qPageSize).toNat).map (enrichArticle sys)).length)
          = ((((publicArticleRows sys qCategoryId qTagId).drop
            ((clampPage qPage - 1) * clampPageSize qPageSize).toNat).take
            (clampPageSize qPageSize).toNat)).length := List.length_map _ _
        _ ≤ (clampPageSize qPageSize).toNat := List.length_take_le _ _
    · rw [List.countP_eq_length_filter]
    · rw [List.map_map]
      have hcomp : ((fun w : ArticleWithRels => w.article) ∘ enrichArticle sys) =
          fun a => a := rfl
      rw [hcomp, List.map_id']
  · refine ⟨_, _, _, _, rfl, clampPage_ge_one qPage, (clampPageSize_bounds qPageSize).1,
      (clampPageSize_bounds qPageSize).2, ?_, ?_, ?_, ?_, rfl⟩
    · intro h
      simp [clampPage, h]
    · intro h
      simp [clampPageSize, h, DEFAULT_PAGE_SIZE]
    · exact List.length_take_le _ _
    · rw [List.countP_eq_length_filter]

/-! ## C8: login issues a token whose expiry is exactly 24h after issue -/

/-- C8: a successful login (parsed credentials, admin row found, bcrypt
match) answers with a token that, decoded under the same secret at any
instant before its expiry, yields a payload carrying the admin's id as
subject and the admin's username, with `exp − iat = 86400` — the expiry is
exactly 24 hours after the issued-at timestamp. -/
theorem handleLogin_token_spec (bcryptCompare : String → String → Bool)
    (jwtSecret : String) (nowMs : Nat) (body : JsonObj) (sys : Sys)
    (username password : String) (admin : Admin)
    (hu : getRequiredString body "username" = some username)
    (hp : getRequiredString body "password" = some password)
    (hul : validateStringLength username "username" 1 50 = none)
    (hpl : validateStringLength password "password" 6 100 = none)
    (hfind : sys.admins.find? (fun a => decide (a.username = username)) = some admin)
    (hcmp : bcryptCompare password admin.passwordHash = true) :
    ∃ token : JoseToken,
      handleLogin bcryptCompare jwtSecret nowMs "POST" (some body) sys =
        successResponse (.loginResult token (Int.ofNat (nowMs / 1000) + 86400))
      ∧ (∀ tDec : Int, tDec < token.exp →
          ∃ payload, verifyTokenModel token jwtSecret tDec = some payload
            ∧ payload.exp - payload.iat = 86400
            ∧ payload.sub = toString admin.id
            ∧ payload.username = admin.username) := by
  refine ⟨signToken (toString admin.id) admin.username jwtSecret (Int.ofNat (nowMs / 1000)),
    ?_, ?_⟩
  · simp only [handleLogin, hu, hp, hul, hpl, hfind, hcmp]
    simp [getTokenExpirationSeconds, TOKEN_EXPIRATION_SECONDS]
  · intro tDec htDec
    refine ⟨⟨toString admin.id, admin.username, Int.ofNat (nowMs / 1000),
      Int.ofNat (nowMs / 1000) + TOKEN_EXPIRATION_SECONDS⟩, ?_, by simp [TOKEN_EXPIRATION_SECONDS], rfl, rfl⟩
    simp only [verifyTokenModel, signToken]
    rw [if_pos]
    simp only [Bool.and_eq_true, decide_eq_true_eq]
    exact ⟨trivial, htDec⟩

/-- Concrete bcrypt oracle for the C8 witness. -/
def witnessBcrypt : String → String → Bool :=
  fun password hash => decide (password = "admin123") && decide (hash = "h1")

/-- Concrete state for the C8 witness: the bootstrap admin row. -/
def witnessSysC8 : Sys := ⟨[], [], [], [], [⟨1, "admin", "h1", 0⟩], [], []⟩

def witnessBodyC8 : JsonObj := [("username", .str "admin"), ("password", .str "admin123")]

/-- C8 witness: logging in as the bootstrap admin at t = 1s issues a token
decoding to `exp − iat = 86400` with subject "1" and username "admin". -/
theorem handleLogin_token_spec_witness :
    ∃ token : JoseToken,
      handleLogin witnessBcrypt "sec" 1000 "POST" (some witnessBodyC8) witnessSysC8 =
        successResponse (.loginResult token (Int.ofNat (1000 / 1000) + 86400))
      ∧ (∀ tDec : Int, tDec < token.exp →
          ∃ payload, verifyTokenModel token "sec" tDec = some payload
            ∧ payload.exp - payload.iat = 86400
            ∧ payload.sub = toString (1 : Int)
            ∧ payload.username = "admin") :=
  handleLogin_token_spec witnessBcrypt "sec" 1000 witnessBodyC8 witnessSysC8
    "admin" "admin123" ⟨1, "admin", "h1", 0⟩ (by decide) (by decide) (by decide)
    (by decide) (by decide) (by decide)

/-! ## C4: login rate limiting -/

/-- A sequence of `checkRateLimit` calls for one key at the given times,
threading the store; returns the `allowed` flags. -/
def runRateLimit (key : String) (cfg : RateLimitConfig) :
    List Nat → RateStore → List Bool × RateStore
  | [], store => ([], store)
  | t :: ts, store =>
    let step := checkRateLimit t key cfg store
    let rest := runRateLimit key cfg ts step.2
    (step.1.allowed :: rest.1, rest.2)

theorem lookup_storeSet (store : RateStore) (key : String) (r : RateRecord) :
    (storeSet store key r).lookup key = some r := by
  simp [storeSet, List.lookup]

theorem checkRateLimit_fresh {now : Nat} {key : String} {cfg : RateLimitConfig}
    {store : RateStore} (hl : store.lookup key = none) :
    checkRateLimit now key cfg store =
      (⟨true, cfg.maxRequests - 1, now + cfg.windowMs⟩,
        storeSet store key ⟨1, now + cfg.windowMs⟩) := by
  simp only [checkRateLimit, hl]

theorem checkRateLimit_existing {now : Nat} {key : String} {cfg : RateLimitConfig}
    {store : RateStore} {c rt : Nat}
    (hl : store.lookup key = some ⟨c, rt⟩) (hin : now ≤ rt) :
    checkRateLimit now key cfg store =
      if cfg.maxRequests ≤ c then (⟨false, 0, rt⟩, store)
      else (⟨true, cfg.maxRequests - (c + 1), rt⟩, storeSet store key ⟨c + 1, rt⟩) := by
  simp only [checkRateLimit, hl]
  rw [if_neg (by omega : ¬ now > rt)]
  simp only [hl]

/-- In-window behaviour: with a live record at count `c`, a run of calls
all at or before the record's reset time grants exactly
`min (number of calls) (maxRequests − c)` of them. -/
theorem min_succ_sub_one {n m : Nat} (hm : 1 ≤ m) :
    min n (m - 1) + 1 = min (n + 1) m := by
  rw [Nat.min_def, Nat.min_def]
  split <;> split <;> omega

theorem runRateLimit_count_existing (key : String) (cfg : RateLimitConfig) :
    ∀ (ts : List Nat) (store : RateStore) (c rt : Nat),
      store.lookup key = some ⟨c, rt⟩ →
      (∀ t ∈ ts, t ≤ rt) →
      (runRateLimit key cfg ts store).1.count true =
        min ts.length (cfg.maxRequests - c) := by
  intro ts
  induction ts with
  | nil =>
    intro store c rt hl hts
    simp [runRateLimit]
  | cons t ts ih =>
    intro store c rt hl hts
    have hin : t ≤ rt := hts t (by simp)
    by_cases hge : cfg.maxRequests ≤ c
    · have hstep : checkRateLimit t key cfg store = (⟨false, 0, rt⟩, store) := by
        rw [checkRateLimit_existing hl hin, if_pos hge]
      simp only [runRateLimit, hstep]
      have hrec := ih store c rt hl (fun u hu => hts u (by simp [hu]))
      simp only [List.count_cons, hrec]
      have hz : cfg.maxRequests - c = 0 := by omega
      simp [hz]
    · have hstep : checkRateLimit t key cfg store =
          (⟨true, cfg.maxRequests - (c + 1), rt⟩, storeSet store key ⟨c + 1, rt⟩) := by
        rw [checkRateLimit_existing hl hin, if_neg hge]
      simp only [runRateLimit, hstep]
      have hrec := ih (storeSet store key ⟨c + 1, rt⟩) (c + 1) rt
        (lookup_storeSet store key ⟨c + 1, rt⟩) (fun u hu => hts u (by simp [hu]))
      simp only [List.count_cons, hrec, List.length_cons, beq_self_eq_true, if_true]
      have hm : 1 ≤ cfg.maxRequests - c := by omega
      have hsub : cfg.maxRequests - (c + 1) = cfg.maxRequests - c - 1 := by omega
      rw [hsub, min_succ_sub_one hm]

theorem lookup_storeDelete (store : RateStore) (key : String) :
    (storeDelete store key).lookup key = none := by
  induction store with
  | nil => rfl
  | cons p ps ih =>
    rcases p with ⟨k, r⟩
    by_cases hk : k = key
    · simpa [storeDelete, List.filter_cons, hk] using ih
    · simp only [storeDelete, List.filter_cons] at ih ⊢
      rw [if_pos (by simp [hk])]
      rw [List.lookup_cons]
      simp only [show (key == k) = false from by simp [Ne.symm hk]]
      exact ih

/-- C4: under the login configuration (5 requests per 60000 ms window),
(1) starting with no record for a key, a run whose first call is at `t0`
and whose remaining calls all happen by `t0 + 60000` grants exactly
`min n 5` of its `n` calls — at most five; (2) once the stored count has
reached five, any call still inside the window is refused with
`remaining = 0` and the store unchanged, so every further in-window call
is refused the same way; (3) a call after the stored reset time is allowed
again; (4) a login request dispatched while the client IP's window is
exhausted receives the 429 envelope with `Retry-After` equal to
`ceil((resetTime − now) / 1000)` seconds, the state untouched. -/
theorem rateLimit_spec :
    (∀ (t0 : Nat) (ts : List Nat) (store : RateStore) (key : String),
      store.lookup key = none →
      (∀ t ∈ ts, t ≤ t0 + 60000) →
      (runRateLimit key ⟨5, 60000⟩ (t0 :: ts) store).1.count true = min (ts.length + 1) 5)
    ∧ (∀ (now : Nat) (key : String) (store : RateStore) (c rt : Nat),
        store.lookup key = some ⟨c, rt⟩ → 5 ≤ c → now ≤ rt →
        checkRateLimit now key ⟨5, 60000⟩ store = (⟨false, 0, rt⟩, store))
    ∧ (∀ (now : Nat) (key : String) (store : RateStore) (r : RateRecord),
        store.lookup key = some r → r.resetTime < now →
        (checkRateLimit now key ⟨5, 60000⟩ store).1.allowed = true)
    ∧ (∀ (verify : String → String → Option JWTPayload)
        (bcrypt : String → String → Bool) (secret : String) (nowMs : Nat)
        (rand : String) (req : Request) (sys : Sys) (c rt : Nat),
        req.path = "/api/login" → req.method = "POST" →
        sys.rateStore.lookup
          ("login:" ++ getClientIP req.cfConnectingIP req.xForwardedFor) = some ⟨c, rt⟩ →
        5 ≤ c → nowMs ≤ rt →
        handleRequest verify bcrypt secret nowMs rand req sys =
          (tooManyRequestsResponse "Too many login attempts. Please try again later."
            ((rt - nowMs + 999) / 1000), sys)
        ∧ (nowMs < rt →
          (handleRequest verify bcrypt secret nowMs rand req sys).1.status = 429
          ∧ (handleRequest verify bcrypt secret nowMs rand req sys).1.retryAfter =
            some ((rt - nowMs + 999) / 1000))) := by
  refine ⟨?_, ?_, ?_, ?_⟩
  · intro t0 ts store key hl hts
    have hfresh := @checkRateLimit_fresh t0 key ⟨5, 60000⟩ store hl
    simp only [runRateLimit, hfresh]
    have hrec := runRateLimit_count_existing key ⟨5, 60000⟩ ts
      (storeSet store key ⟨1, t0 + 60000⟩) 1 (t0 + 60000)
      (lookup_storeSet _ _ _) hts
    simp only [List.count_cons, hrec, beq_self_eq_true, if_true]
    exact min_succ_sub_one (by omega)
  · intro now key store c rt hl hc hrt
    rw [checkRateLimit_existing hl hrt, if_pos hc]
  · intro now key store r hl hexp
    have hdel : (storeDelete store key).lookup key = none := lookup_storeDelete store key
    simp only [checkRateLimit, hl]
    rw [if_pos (by omega : now > r.resetTime)]
    simp only [hdel]
  · intro verify bcrypt secret nowMs rand req sys c rt hpath hmethod hl hc hrt
    have hblock : checkRateLimit nowMs
        ("login:" ++ getClientIP req.cfConnectingIP req.xForwardedFor) ⟨5, 60000⟩
        sys.rateStore = (⟨false, 0, rt⟩, sys.rateStore) := by
      rw [checkRateLimit_existing hl hrt, if_pos hc]
    have hmain : handleRequest verify bcrypt secret nowMs rand req sys =
        (tooManyRequestsResponse "Too many login attempts. Please try again later."
          ((rt - nowMs + 999) / 1000), sys) := by
      obtain ⟨sa, sc, st, sat, sad, sb, srs⟩ := sys
      simp only [handleRequest, hpath, hmethod]
      rw [if_pos (by simp)]
      simp only [hblock]
      rfl
    refine ⟨hmain, fun hlt => ?_⟩
    rw [hmain]
    constructor
    · rfl
    · simp only [tooManyRequestsResponse]
      rw [if_neg (by omega : ¬ ((rt - nowMs + 999) / 1000 = 0))]

/-- C4 witness: six calls inside one fresh 60-second window for one key
grant exactly `min 6 5 = 5` of them. -/
theorem rateLimit_spec_witness :
    (runRateLimit "login:1.2.3.4" ⟨5, 60000⟩ [0, 1, 2, 3, 4, 5] []).1.count true =
      min (5 + 1) 5 :=
  rateLimit_spec.1 0 [1, 2, 3, 4, 5] [] "login:1.2.3.4" (by decide) (by decide)

/-! ## Dispatch lemmas: which branch of the route table a protected
request reaches -/

theorem isPrefixOf_eq_false_of_incomparable {p q s : List Char}
    (hpq : p.isPrefixOf q = false) (hqp : q.isPrefixOf p = false)
    (h : p.isPrefixOf s = true) : q.isPrefixOf s = false := by
  by_contra hq
  rw [Bool.not_eq_false] at hq
  have h1 := ( List.isPrefixOf_iff_prefix).1 h
  have h2 := ( List.isPrefixOf_iff_prefix).1 hq
  rcases List.prefix_or_prefix_of_prefix h1 h2 with hc | hc
  · have hb := ( List.isPrefixOf_iff_prefix).2 hc
    simp [hb] at hpq
  · have hb := ( List.isPrefixOf_iff_prefix).2 hc
    simp [hb] at hqp

/-- An admin-prefixed path can never satisfy an id-route pattern rooted at
an incomparable literal. -/
theorem extractIdFromPath_eq_none_of_admin {path : String}
    (h : jsStartsWith path "/api/admin/" = true) (pre : String)
    (h1 : ("/api/admin/".data).isPrefixOf (pre.data ++ ['/']) = false)
    (h2 : (pre.data ++ ['/']).isPrefixOf "/api/admin/".data = false) :
    extractIdFromPath path pre = none := by
  have hpre : (pre.data ++ ['/']).isPrefixOf path.data = false :=
    isPrefixOf_eq_false_of_incomparable h1 h2 h
  simp only [extractIdFromPath, hpre]
  simp

theorem matchSegment_eq_none_of_admin {path : String}
    (h : jsStartsWith path "/api/admin/" = true) (pre tail : String)
    (h1 : ("/api/admin/".data).isPrefixOf pre.data = false)
    (h2 : pre.data.isPrefixOf "/api/admin/".data = false) :
    matchSegment path pre tail = none := by
  have hpre : pre.data.isPrefixOf path.data = false :=
    isPrefixOf_eq_false_of_incomparable h1 h2 h
  simp only [matchSegment, hpre]
  simp

theorem ne_of_admin {path : String}
    (h : jsStartsWith path "/api/admin/" = true) (q : String)
    (hq : ("/api/admin/".data).isPrefixOf q.data = false) : ¬(path = q) := by
  intro he
  subst he
  rw [jsStartsWith] at h
  simp [h] at hq

/-- On a protected path `handleRequest` reaches the authorization gate:
no public route matches first, so the result is the gate's 401 or the
protected region behind it. -/
theorem handleRequest_protected (verify : String → String → Option JWTPayload)
    (bcryptCompare : String → String → Bool) (jwtSecret : String)
    (nowMs : Nat) (rand : String) (req : Request) (sys : Sys)
    (hprot : isProtectedPath req.path = true) :
    handleRequest verify bcryptCompare jwtSecret nowMs rand req sys =
      match authMiddleware verify req.authorization jwtSecret with
      | .errResponse r => (r, sys)
      | .okUser _user => protectedRoutes nowMs rand req sys := by
  have hcases : jsStartsWith req.path "/api/admin/" = true ∨
      decide (req.path = "/api/upload") = true := by
    have h := hprot
    rw [isProtectedPath, Bool.or_eq_true] at h
    exact h
  simp only [handleRequest]
  rcases hcases with hadmin | hupload
  · rw [if_neg (fun hc => ne_of_admin hadmin "/api/login" (by decide) hc.1),
      if_neg (fun hc => ne_of_admin hadmin "/api/articles" (by decide) hc.1),
      if_neg (fun hc => by
        rw [extractIdFromPath_eq_none_of_admin hadmin "/api/article" (by decide) (by decide)]
          at hc
        exact absurd hc.1 (by decide)),
      if_neg (fun hc => by
        rw [matchSegment_eq_none_of_admin hadmin "/api/article/" "/like" (by decide)
          (by decide)] at hc
        exact absurd hc.1 (by decide)),
      if_neg (fun hc => ne_of_admin hadmin "/api/categories" (by decide) hc.1),
      if_neg (fun hc => by
        rw [extractIdFromPath_eq_none_of_admin hadmin "/api/category" (by decide) (by decide)]
          at hc
        exact absurd hc.1 (by decide)),
      if_neg (fun hc => ne_of_admin hadmin "/api/tags" (by decide) hc.1),
      if_neg (fun hc => by
        rw [extractIdFromPath_eq_none_of_admin hadmin "/api/tag" (by decide) (by decide)]
          at hc
        exact absurd hc.1 (by decide)),
      if_pos hprot]
  · have hpath : req.path = "/api/upload" := of_decide_eq_true hupload
    simp only [hpath]
    rw [if_neg (fun hc => absurd hc.1 (by decide)),
      if_neg (fun hc => absurd hc.1 (by decide)),
      if_neg (fun hc => absurd hc.1 (by decide)),
      if_neg (fun hc => absurd hc.1 (by decide)),
      if_neg (fun hc => absurd hc.1 (by decide)),
      if_neg (fun hc => absurd hc.1 (by decide)),
      if_neg (fun hc => absurd hc.1 (by decide)),
      if_neg (fun hc => absurd hc.1 (by decide)),
      if_pos (by decide : isProtectedPath "/api/upload" = true)]

/-! ## C7: upload size and type validation -/

/-- Verifier oracle accepting exactly the C7 token. -/
def verifyC7 : String → String → Option JWTPayload :=
  fun t s => if t = "tok" ∧ s = "sec" then some ⟨"1", "admin", 0, 86400⟩ else none

/-- An authenticated 11MB binary PNG upload with its Content-Length
declared, as any standard client sends it. -/
def reqC7 : Request :=
  ⟨"POST", "/api/upload", some "Bearer tok", some "image/png",
    some (11 * 1024 * 1024), none, none, none, none, 11 * 1024 * 1024,
    none, none, none, none, none⟩

def sysC7 : Sys := ⟨[], [], [], [], [], [], []⟩

/-- C7 counterexample: an 11MB PNG upload whose Content-Length is declared
is rejected with status 413 and code PAYLOAD_TOO_LARGE by the dispatch
body-size gate — not with the 400 BAD_REQUEST the claim asserts — though
the message does mention the 10MB limit. -/
theorem upload_oversize_is_413_not_400 :
    (handleRequest verifyC7 (fun _ _ => false) "sec" 0 "r" reqC7 sysC7).1.status = 413
    ∧ ¬((handleRequest verifyC7 (fun _ _ => false) "sec" 0 "r" reqC7 sysC7).1.status = 400)
    ∧ (handleRequest verifyC7 (fun _ _ => false) "sec" 0 "r" reqC7 sysC7).1.result =
        .err ⟨"PAYLOAD_TOO_LARGE", "File too large. Maximum size: 10MB"⟩ := by
  refine ⟨?_, ?_, ?_⟩ <;> decide

/-- C7 as amended: for an authenticated POST /api/upload, (a) a declared
Content-Length above 10MB is refused at dispatch with 413
PAYLOAD_TOO_LARGE mentioning the 10MB limit; past that gate, on the raw
binary path (b) a body over 10MB of an allowed type gets 400 BAD_REQUEST
mentioning the 10MB limit, (c) a MIME type outside the allow-list gets
400 BAD_REQUEST mentioning the invalid file type, (d) a body of exactly
10MB with an allowed type is accepted with 201 and stored in the bucket;
(e) and (f) state the same size/type rejections for the multipart path. -/
theorem handleUpload_spec (verify : String → String → Option JWTPayload)
    (bcrypt : String → String → Bool) (secret : String) (nowMs : Nat) (rand : String)
    (req : Request) (sys : Sys) (token : String) (payload : JWTPayload) (mime : String)
    (hpath : req.path = "/api/upload") (hmethod : req.method = "POST")
    (htok : extractBearerToken req.authorization = some token)
    (hver : verify token secret = some payload)
    (hmime : mime = jsTrim (String.mk
      ((req.contentType.getD "").data.takeWhile (fun c => !(c = ';'))))) :
    (∀ n, req.contentLength = some n → MAX_UPLOAD_SIZE < n →
      handleRequest verify bcrypt secret nowMs rand req sys =
        (payloadTooLargeResponse "File too large. Maximum size: 10MB", sys))
    ∧ (checkRequestBodySize req.contentLength MAX_UPLOAD_SIZE = true →
        jsIncludes (req.contentType.getD "") "multipart/form-data" = false →
        isValidImageType mime = true → MAX_FILE_SIZE < req.bodySize →
        handleRequest verify bcrypt secret nowMs rand req sys =
          (badRequestResponse fileTooLargeMessage, sys))
    ∧ (checkRequestBodySize req.contentLength MAX_UPLOAD_SIZE = true →
        jsIncludes (req.contentType.getD "") "multipart/form-data" = false →
        isValidImageType mime = false →
        handleRequest verify bcrypt secret nowMs rand req sys =
          (badRequestResponse invalidTypeMessage, sys))
    ∧ (checkRequestBodySize req.contentLength MAX_UPLOAD_SIZE = true →
        jsIncludes (req.contentType.getD "") "multipart/form-data" = false →
        isValidImageType mime = true → req.bodySize = MAX_FILE_SIZE →
        handleRequest verify bcrypt secret nowMs rand req sys =
          (successResponse (.uploadResult
              ("/uploads/" ++ generateUniqueFilename nowMs rand mime)
              (generateUniqueFilename nowMs rand mime)) 201,
            { sys with bucket := sys.bucket ++
                [⟨generateUniqueFilename nowMs rand mime, MAX_FILE_SIZE, mime⟩] }))
    ∧ (∀ file, checkRequestBodySize req.contentLength MAX_UPLOAD_SIZE = true →
        jsIncludes (req.contentType.getD "") "multipart/form-data" = true →
        req.formFile = some file →
        isValidImageType file.fileType = false →
        handleRequest verify bcrypt secret nowMs rand req sys =
          (badRequestResponse invalidTypeMessage, sys))
    ∧ (∀ file, checkRequestBodySize req.contentLength MAX_UPLOAD_SIZE = true →
        jsIncludes (req.contentType.getD "") "multipart/form-data" = true →
        req.formFile = some file →
        isValidImageType file.fileType = true → MAX_FILE_SIZE < file.fileSize →
        handleRequest verify bcrypt secret nowMs rand req sys =
          (badRequestResponse fileTooLargeMessage, sys)) := by
  have hprot : isProtectedPath req.path = true := by
    rw [hpath]
    decide
  have hgate : handleRequest verify bcrypt secret nowMs rand req sys =
      protectedRoutes nowMs rand req sys := by
    rw [handleRequest_protected verify bcrypt secret nowMs rand req sys hprot]
    simp only [authMiddleware, htok, hver]
  have hupload : protectedRoutes nowMs rand req sys =
      if !(checkRequestBodySize req.contentLength MAX_UPLOAD_SIZE) then
        (payloadTooLargeResponse "File too large. Maximum size: 10MB", sys)
      else
        handleUpload nowMs rand req.method req.contentType req.formFile req.bodySize sys := by
    simp only [protectedRoutes]
    rw [if_pos ⟨hpath, hmethod⟩]
  refine ⟨?_, ?_, ?_, ?_, ?_, ?_⟩
  · intro n hn hbig
    rw [hgate, hupload, hn]
    rw [if_pos (by simp only [checkRequestBodySize]; simp; omega)]
  · intro hsize hbin hmtype hbig
    rw [hgate, hupload, if_neg (by simp [hsize])]
    simp only [handleUpload, hmethod]
    rw [if_neg (by simp), if_neg (by simp [hbin])]
    rw [if_neg (by rw [← hmime]; simp [hmtype])]
    rw [if_pos (by
      simp only [isValidFileSize, Bool.not_eq_true', Bool.and_eq_false_iff]
      right
      simp only [decide_eq_false_iff_not]
      omega)]
  · intro hsize hbin hmtype
    rw [hgate, hupload, if_neg (by simp [hsize])]
    simp only [handleUpload, hmethod]
    rw [if_neg (by simp), if_neg (by simp [hbin])]
    rw [if_pos (by rw [← hmime]; simp [hmtype])]
  · intro hsize hbin hmtype hexact
    rw [hgate, hupload, if_neg (by simp [hsize])]
    simp only [handleUpload, hmethod]
    rw [if_neg (by simp), if_neg (by simp [hbin])]
    rw [if_neg (by rw [← hmime]; simp [hmtype])]
    rw [if_neg (by rw [hexact]; decide)]
    rw [← hmime, hexact]
  · intro file hsize hmulti hfile hmtype
    rw [hgate, hupload, if_neg (by simp [hsize])]
    simp only [handleUpload, hmethod, hfile]
    rw [if_neg (by simp), if_pos hmulti]
    rw [if_pos (by simp [hmtype])]
  · intro file hsize hmulti hfile hmtype hbig
    rw [hgate, hupload, if_neg (by simp [hsize])]
    simp only [handleUpload, hmethod, hfile]
    rw [if_neg (by simp), if_pos hmulti]
    rw [if_neg (by simp [hmtype])]
    rw [if_pos (by
      simp only [isValidFileSize, Bool.not_eq_true', Bool.and_eq_false_iff]
      right
      simp only [decide_eq_false_iff_not]
      omega)]

/-- An authenticated binary PNG upload of exactly 10MB. -/
def reqC7ok : Request :=
  ⟨"POST", "/api/upload", some "Bearer tok", some "image/png",
    some (10 * 1024 * 1024), none, none, none, none, 10 * 1024 * 1024,
    none, none, none, none, none⟩

/-- C7 witness: the exactly-10MB allowed-type upload is accepted with 201
and stored. -/
theorem handleUpload_spec_witness :
    handleRequest verifyC7 (fun _ _ => false) "sec" 0 "r" reqC7ok sysC7 =
      (successResponse (.uploadResult
          ("/uploads/" ++ generateUniqueFilename 0 "r" "image/png")
          (generateUniqueFilename 0 "r" "image/png")) 201,
        { sysC7 with bucket := sysC7.bucket ++
            [⟨generateUniqueFilename 0 "r" "image/png", MAX_FILE_SIZE, "image/png"⟩] }) :=
  (handleUpload_spec verifyC7 (fun _ _ => false) "sec" 0 "r" reqC7ok sysC7 "tok"
    ⟨"1", "admin", 0, 86400⟩ "image/png" (by decide) (by decide) (by decide)
    (by decide) (by decide)).2.2.2.1 (by decide) (by decide) (by decide) (by decide)

/-! ## C1: the authorization gate guards exactly the protected routes -/

theorem parseArticleForm_inl_status {body : JsonObj} {r : Response}
    (h : parseArticleForm body = Sum.inl r) : r.status = 400 := by
  unfold parseArticleForm at h
  repeat' split at h
  all_goals first
    | (cases h; rfl)
    | cases h

theorem status_handleUpload (nowMs : Nat) (rand method : String)
    (ct : Option String) (ff : Option MultipartFile) (bs : Nat) (sys : Sys) :
    (handleUpload nowMs rand method ct ff bs sys).1.status ≠ 401 := by
  unfold handleUpload
  repeat' split
  all_goals simp [badRequestResponse, successResponse, errorResponse]
  all_goals split_ifs <;> simp

theorem status_handleGetAdminArticles (sys : Sys) (qp qps qc : Option Int)
    (qs : Option String) : (handleGetAdminArticles sys qp qps qc qs).status ≠ 401 := by
  simp [handleGetAdminArticles, successResponse]

theorem status_handleCreateArticle (now : Int) (body? : Option JsonObj) (sys : Sys) :
    (handleCreateArticle now body? sys).1.status ≠ 401 := by
  unfold handleCreateArticle
  repeat' split
  all_goals first
    | (rename_i r hr
       have h40 := parseArticleForm_inl_status hr
       simp [h40])
    | simp [badRequestResponse, successResponse, errorResponse]

theorem status_handleGetAdminArticle (sys : Sys) (id : Int) :
    (handleGetAdminArticle sys id).status ≠ 401 := by
  unfold handleGetAdminArticle
  repeat' split
  all_goals simp [notFoundResponse, successResponse, errorResponse]

theorem status_handleUpdateArticle (now : Int) (body? : Option JsonObj) (sys : Sys)
    (id : Int) : (handleUpdateArticle now body? sys id).1.status ≠ 401 := by
  unfold handleUpdateArticle
  repeat' split
  all_goals first
    | (rename_i r hr
       have h40 := parseArticleForm_inl_status hr
       simp [h40])
    | simp [badRequestResponse, notFoundResponse, successResponse, errorResponse]

theorem status_handleDeleteArticle (sys : Sys) (id : Int) :
    (handleDeleteArticle sys id).1.status ≠ 401 := by
  unfold handleDeleteArticle
  repeat' split
  all_goals simp [notFoundResponse, successResponse, errorResponse]

theorem status_handlePinArticle (sys : Sys) (id : Int) :
    (handlePinArticle sys id).1.status ≠ 401 := by
  unfold handlePinArticle
  repeat' split
  all_goals simp [notFoundResponse, successResponse, errorResponse]

theorem status_handleCreateCategory (now : Int) (body? : Option JsonObj) (sys : Sys) :
    (handleCreateCategory now body? sys).1.status ≠ 401 := by
  unfold handleCreateCategory
  repeat' split
  all_goals simp [badRequestResponse, conflictResponse, successResponse, errorResponse]

theorem status_handleUpdateCategory (body? : Option JsonObj) (sys : Sys) (id : Int) :
    (handleUpdateCategory body? sys id).1.status ≠ 401 := by
  unfold handleUpdateCategory
  repeat' split
  all_goals simp [badRequestResponse, notFoundResponse, conflictResponse,
    successResponse, errorResponse]

theorem status_handleDeleteCategory (sys : Sys) (id : Int) :
    (handleDeleteCategory sys id).1.status ≠ 401 := by
  unfold handleDeleteCategory
  repeat' split
  all_goals simp [notFoundResponse, conflictResponse, successResponse, errorResponse]
  all_goals try (split_ifs <;> simp)

theorem status_handleCreateTag (now : Int) (body? : Option JsonObj) (sys : Sys) :
    (handleCreateTag now body? sys).1.status ≠ 401 := by
  unfold handleCreateTag
  repeat' split
  all_goals simp [badRequestResponse, conflictResponse, successResponse, errorResponse]

theorem status_handleDeleteTag (sys : Sys) (id : Int) :
    (handleDeleteTag sys id).1.status ≠ 401 := by
  unfold handleDeleteTag
  repeat' split
  all_goals simp [notFoundResponse, successResponse, errorResponse]

/-- Behind the gate, no protected route ever answers 401. -/
theorem protectedRoutes_status (nowMs : Nat) (rand : String) (req : Request)
    (sys : Sys) : (protectedRoutes nowMs rand req sys).1.status ≠ 401 := by
  unfold protectedRoutes
  by_cases h1 : req.path = "/api/upload" ∧ req.method = "POST"
  · rw [if_pos h1]
    by_cases h1b : (!(checkRequestBodySize req.contentLength MAX_UPLOAD_SIZE)) = true
    · rw [if_pos h1b]
      simp [payloadTooLargeResponse, errorResponse]
    · rw [if_neg h1b]
      apply status_handleUpload
  · rw [if_neg h1]
    by_cases h2 : req.path = "/api/admin/articles" ∧ req.method = "GET"
    · rw [if_pos h2]
      apply status_handleGetAdminArticles
    · rw [if_neg h2]
      by_cases h3 : req.path = "/api/admin/article" ∧ req.method = "POST"
      · rw [if_pos h3]
        apply status_handleCreateArticle
      · rw [if_neg h3]
        by_cases h4 : (extractIdFromPath req.path "/api/admin/article").isSome = true ∧
            req.method = "GET"
        · rw [if_pos h4]
          apply status_handleGetAdminArticle
        · rw [if_neg h4]
          by_cases h5 : (extractIdFromPath req.path "/api/admin/article").isSome = true ∧
              req.method = "PUT"
          · rw [if_pos h5]
            apply status_handleUpdateArticle
          · rw [if_neg h5]
            by_cases h6 : (extractIdFromPath req.path "/api/admin/article").isSome = true ∧
                req.method = "DELETE"
            · rw [if_pos h6]
              apply status_handleDeleteArticle
            · rw [if_neg h6]
              by_cases h7 : (matchSegment req.path "/api/admin/article/" "/pin").isSome = true ∧
                  req.method = "POST"
              · rw [if_pos h7]
                apply status_handlePinArticle
              · rw [if_neg h7]
                by_cases h8 : req.path = "/api/admin/category" ∧ req.method = "POST"
                · rw [if_pos h8]
                  apply status_handleCreateCategory
                · rw [if_neg h8]
                  by_cases h9 : (extractIdFromPath req.path "/api/admin/category").isSome = true ∧
                      req.method = "PUT"
                  · rw [if_pos h9]
                    apply status_handleUpdateCategory
                  · rw [if_neg h9]
                    by_cases h10 : (extractIdFromPath req.path "/api/admin/category").isSome = true ∧
                        req.method = "DELETE"
                    · rw [if_pos h10]
                      apply status_handleDeleteCategory
                    · rw [if_neg h10]
                      by_cases h11 : req.path = "/api/admin/tag" ∧ req.method = "POST"
                      · rw [if_pos h11]
                        apply status_handleCreateTag
                      · rw [if_neg h11]
                        by_cases h12 : (extractIdFromPath req.path "/api/admin/tag").isSome = true ∧
                            req.method = "DELETE"
                        · rw [if_pos h12]
                          apply status_handleDeleteTag
                        · rw [if_neg h12]
                          simp [notFoundResponse, errorResponse]

/-- C1: the authorization gate guards exactly the routes whose path starts
with `/api/admin/` or equals `/api/upload`.  On such a path: a missing or
malformed Authorization header yields the 401 missing-header envelope and
an extracted token the verifier rejects yields the 401 invalid-token
envelope, in both cases with the whole state untouched — no handler runs;
a token the verifier accepts is never answered 401.  On every other path
the outcome is identical whatever the Authorization header carries and
whatever the verifier would say: no token is ever required. -/
theorem auth_gate_spec :
    (∀ (verify : String → String → Option JWTPayload)
      (bcrypt : String → String → Bool) (secret : String) (nowMs : Nat)
      (rand : String) (req : Request) (sys : Sys),
      isProtectedPath req.path = true →
      ((extractBearerToken req.authorization = none →
        handleRequest verify bcrypt secret nowMs rand req sys =
          (unauthorizedResponse "Missing or invalid authorization header", sys))
      ∧ (∀ token, extractBearerToken req.authorization = some token →
          verify token secret = none →
          handleRequest verify bcrypt secret nowMs rand req sys =
            (unauthorizedResponse "Invalid or expired token", sys))
      ∧ (∀ token payload, extractBearerToken req.authorization = some token →
          verify token secret = some payload →
          (handleRequest verify bcrypt secret nowMs rand req sys).1.status ≠ 401)))
    ∧ (∀ (verify1 verify2 : String → String → Option JWTPayload)
        (bcrypt : String → String → Bool) (secret : String) (nowMs : Nat)
        (rand : String) (req : Request) (sys : Sys) (a1 a2 : Option String),
        isProtectedPath req.path = false →
        handleRequest verify1 bcrypt secret nowMs rand
          { req with authorization := a1 } sys =
        handleRequest verify2 bcrypt secret nowMs rand
          { req with authorization := a2 } sys) := by
  constructor
  · intro verify bcrypt secret nowMs rand req sys hprot
    refine ⟨?_, ?_, ?_⟩
    · intro hnone
      rw [handleRequest_protected verify bcrypt secret nowMs rand req sys hprot]
      simp only [authMiddleware, hnone]
    · intro token htok hver
      rw [handleRequest_protected verify bcrypt secret nowMs rand req sys hprot]
      simp only [authMiddleware, htok, hver]
    · intro token payload htok hver
      rw [handleRequest_protected verify bcrypt secret nowMs rand req sys hprot]
      simp only [authMiddleware, htok, hver]
      exact protectedRoutes_status nowMs rand req sys
  · intro verify1 verify2 bcrypt secret nowMs rand req sys a1 a2 hpub
    have hneg : ¬ (isProtectedPath req.path = true) := by simp [hpub]
    simp only [handleRequest]
    rw [if_neg hneg, if_neg hneg]

/-- Concrete state and request for the C1 witness: an admin route hit
without any Authorization header. -/
def witnessReqC1 : Request :=
  ⟨"GET", "/api/admin/articles", none, none, none, none, none, none, none, 0,
    none, none, none, none, none⟩

def witnessSysC1 : Sys := ⟨[], [], [], [], [], [], []⟩

/-- C1 witness: the header-less admin request draws the 401
missing-header envelope with the state untouched. -/
theorem auth_gate_spec_witness :
    handleRequest (fun _ _ => none) (fun _ _ => false) "sec" 0 "r"
      witnessReqC1 witnessSysC1 =
      (unauthorizedResponse "Missing or invalid authorization header", witnessSysC1) :=
  ((auth_gate_spec.1 (fun _ _ => none) (fun _ _ => false) "sec" 0 "r"
    witnessReqC1 witnessSysC1 (by decide)).1 (by decide))

end Blog
